import Mathlib

/-!
Shallow embedding of the LazyLoad Plus loader controller
(source: `src/unnamed/part_001`, the v4.3.0 core) and proofs about it.

Modelling conventions:
* DOM elements are identified by natural numbers (`ElemId`); a `Dom` maps
  identifiers to `Element` records holding the tag, CSS class list,
  attribute association list, the presentation properties the loader
  assigns (`src`, `srcset`, `sizes`, `poster`, `backgroundImage`), the
  child `<source>` elements (for `<picture>`/`<video>`) and the child
  `<img>` (for `<picture>`).
* JS `Set` objects (`_elementsToObserve`, `_observedByIO`,
  `_errorElements`) are duplicate-free lists in insertion order
  (`setAdd` / `setDelete`); the retry `WeakMap` is an association list.
* The `IntersectionObserver` instance is `Option (List ElemId)`: `none`
  models a null `_observer`, `some l` a live instance whose registered
  targets are `l`.  `disconnect` empties the target list, `destroy`
  nulls the field.  Environment capabilities (`IS_BROWSER` is taken as
  true; availability of `IntersectionObserver`) appear as the
  `hasDetector` parameter, and viewport geometry as `vis : ElemId → Bool`
  (the result of `_isElementVisible`).
* `requestAnimationFrame` / `setTimeout` deferrals are collapsed: the
  deferred bodies run immediately, in program order (the spec notes this
  changes timing only, not observable terminal state).  The genuinely
  asynchronous boundary — waiting for a media `load`/`error`
  (`canplaythrough` for videos) event — is kept: revealing an element
  with source data creates an in-flight `Attempt`, and `deliverEvent`
  models the browser later firing an event at it.
* Callback invocations (`callback_enter/load/error/finish`) are recorded
  in an append-only log `log : List Cb`; `dispatch_events` custom DOM
  events and debug logging are not modelled.
-/

namespace LazyLoadModel

/-- Identifier of a DOM node (JS object identity). -/
abbrev ElemId := Nat

/-- The tag names the reveal procedure dispatches on (`_revealElement`);
`other` covers the background-image branch. -/
inductive Tag
  | img
  | picture
  | video
  | iframe
  | other
deriving DecidableEq, Repr

/-- A child `<source>` element of a `<picture>` or `<video>`. -/
structure SourceEl where
  attrs : List (String × String)
  propSrc : Option String
  propSrcset : Option String
  propSizes : Option String
  propMedia : Option String
deriving DecidableEq, Repr

/-- A DOM element as the loader sees it. -/
structure Element where
  tag : Tag
  classes : List String
  attrs : List (String × String)
  propSrc : Option String
  propSrcset : Option String
  propSizes : Option String
  propPoster : Option String
  propBackgroundImage : Option String
  sources : List SourceEl
  childImg : Option ElemId
deriving DecidableEq, Repr

/-- `element.classList.contains(c)`. -/
def Element.hasClass (el : Element) (c : String) : Prop :=
  c ∈ el.classes

instance (el : Element) (c : String) : Decidable (el.hasClass c) :=
  inferInstanceAs (Decidable (c ∈ el.classes))

/-- `classList.add` guarded as in `_addClass` (no-op on an empty class name). -/
def Element.addClass (el : Element) (c : String) : Element :=
  if c = "" then el
  else if c ∈ el.classes then el
  else { el with classes := el.classes ++ [c] }

/-- `classList.remove` guarded as in `_removeClass`. -/
def Element.removeClass (el : Element) (c : String) : Element :=
  if c = "" then el else { el with classes := el.classes.filter (fun x => x ≠ c) }

/-- `_getAttribute`. -/
def Element.getAttribute (el : Element) (a : String) : Option String :=
  (el.attrs.find? (fun p => decide (p.1 = a))).map (fun p => p.2)

/-- `_removeAttribute`. -/
def Element.removeAttribute (el : Element) (a : String) : Element :=
  { el with attrs := el.attrs.filter (fun p => p.1 ≠ a) }

/-- `getAttribute` on a child `<source>`. -/
def SourceEl.getAttr (so : SourceEl) (a : String) : Option String :=
  (so.attrs.find? (fun p => decide (p.1 = a))).map (fun p => p.2)

/-- `removeAttribute` on a child `<source>`. -/
def SourceEl.removeAttr (so : SourceEl) (a : String) : SourceEl :=
  { so with attrs := so.attrs.filter (fun p => p.1 ≠ a) }

/-- The configuration fields the modelled core reads (defaults below are
the source's `defaults` object). -/
structure Settings where
  src : String
  srcset : String
  sizes : String
  poster : String
  class_loading : String
  class_loaded : String
  class_error : String
  skip_invisible : Bool
  retry_backoff_base_ms : Nat
  retry_max_attempts : Nat
deriving DecidableEq, Repr

/-- The source's `defaults` (the fields the model keeps). -/
def defaults : Settings :=
  { src := "data-src"
    srcset := "data-srcset"
    sizes := "data-sizes"
    poster := "data-poster"
    class_loading := "lazyloading"
    class_loaded := "lazyloaded"
    class_error := "lazyerror"
    skip_invisible := false
    retry_backoff_base_ms := 1000
    retry_max_attempts := 5 }

/-- Per-element retry bookkeeping (`_retryData` values). -/
structure RetryInfo where
  count : Nat
  nextAttemptAt : Nat
deriving DecidableEq, Repr

/-- JS `Set.add`: append if absent (insertion order preserved). -/
def setAdd (s : List ElemId) (x : ElemId) : List ElemId :=
  if x ∈ s then s else s ++ [x]

/-- JS `Set.delete`. -/
def setDelete (s : List ElemId) (x : ElemId) : List ElemId :=
  s.filter (fun y => y ≠ x)

/-- `_retryData.get`. -/
def rdGet (rd : List (ElemId × RetryInfo)) (x : ElemId) : Option RetryInfo :=
  (rd.find? (fun p => decide (p.1 = x))).map (fun p => p.2)

/-- `_retryData.set`. -/
def rdSet (rd : List (ElemId × RetryInfo)) (x : ElemId) (v : RetryInfo) :
    List (ElemId × RetryInfo) :=
  if (rd.find? (fun p => decide (p.1 = x))).isSome then
    rd.map (fun p => if p.1 = x then (x, v) else p)
  else rd ++ [(x, v)]

/-- `_retryData.delete`. -/
def rdDelete (rd : List (ElemId × RetryInfo)) (x : ElemId) :
    List (ElemId × RetryInfo) :=
  rd.filter (fun p => p.1 ≠ x)

/-- Callback invocations, in invocation order. -/
inductive Cb
  | enter (e : ElemId)
  | load (e : ElemId)
  | error (e : ElemId) (detail : String)
  | finish (e : ElemId)
deriving DecidableEq, Repr

/-- An in-flight (or completed) load attempt: which element it is for,
which media-event listeners are currently attached, and the
exactly-once `hasFired` latch. -/
structure Attempt where
  target : ElemId
  hasLoadListener : Bool
  hasErrorListener : Bool
  fired : Bool
deriving DecidableEq, Repr

/-- A media event the browser may fire at an attempt's element
(`load` also stands for a video's `canplaythrough`). -/
inductive MediaEvent
  | load
  | error
deriving DecidableEq, Repr

/-- The whole mutable world: the DOM plus one `LazyLoad` instance's state. -/
structure World where
  dom : ElemId → Element
  settings : Settings
  elementsToObserve : List ElemId
  observedByDetector : List ElemId
  errorElements : List ElemId
  retryData : List (ElemId × RetryInfo)
  observer : Option (List ElemId)
  onlineListener : Bool
  attempts : List Attempt
  log : List Cb

/-- Point update of the DOM. -/
def updateDom (dom : ElemId → Element) (x : ElemId) (f : Element → Element) :
    ElemId → Element :=
  fun y => if y = x then f (dom y) else dom y

/-- `_finishLoading(element, success, errorEvent)`: removes the loading
class; on success adds the loaded class, clears error tracking and retry
metadata and fires `callback_load`; on failure adds the error class,
records the element in `_errorElements` and fires `callback_error` with
the event detail (`'Unknown error'` for a null event); always fires
`callback_finish` and always strips all five recognised data attributes. -/
def finishLoading (w : World) (e : ElemId) (success : Bool)
    (errMsg : Option String) : World :=
  let s := w.settings
  let w := { w with dom := updateDom w.dom e (fun el => el.removeClass s.class_loading) }
  let w :=
    if success then
      { w with
        dom := updateDom w.dom e (fun el => el.addClass s.class_loaded)
        errorElements := setDelete w.errorElements e
        retryData := rdDelete w.retryData e
        log := w.log ++ [Cb.load e] }
    else
      { w with
        dom := updateDom w.dom e (fun el => el.addClass s.class_error)
        errorElements := setAdd w.errorElements e
        log := w.log ++ [Cb.error e (errMsg.getD "Unknown error")] }
  let w := { w with log := w.log ++ [Cb.finish e] }
  { w with
    dom := updateDom w.dom e (fun el =>
      ((((el.removeAttribute s.src).removeAttribute s.srcset).removeAttribute
          s.sizes).removeAttribute s.poster).removeAttribute "data-media") }

/-- Which presentation property an image assignment touched (used to state
the `sizes` → `srcset` → `src` ordering of `applyImageAttributes`). -/
inductive PropAssign
  | sizes
  | srcset
  | src
deriving DecidableEq, Repr

/-- The body of `applyImageAttributes` in `_loadImage`: assigns `sizes`,
then `srcset`, then `src` (in that order), removing each consumed data
attribute; returns the updated element, the ordered assignment trace, and
the synthesised error message when neither `src` nor `srcset` data was
present. -/
def applyImageAttributes (s : Settings) (el0 : Element)
    (src srcset sizes : Option String) :
    Element × List PropAssign × Option String :=
  let p1 : Element × List PropAssign :=
    match sizes with
    | some v => (Element.removeAttribute { el0 with propSizes := some v } s.sizes,
        [PropAssign.sizes])
    | none => (el0, [])
  let p2 : Element × List PropAssign :=
    match srcset with
    | some v => (Element.removeAttribute { p1.1 with propSrcset := some v } s.srcset,
        p1.2 ++ [PropAssign.srcset])
    | none => p1
  let p3 : Element × List PropAssign :=
    match src with
    | some v => (Element.removeAttribute { p2.1 with propSrc := some v } s.src,
        p2.2 ++ [PropAssign.src])
    | none => p2
  let synth : Option String :=
    match src, srcset with
    | none, none => some "Image has no source data (data-src or data-srcset)"
    | _, _ => none
  (p3.1, p3.2, synth)

/-- `_loadImage(imgElement, src, srcset, sizes)`: attaches `load` and
`error` listeners guarded by the `hasFired` latch, applies the image
attributes, and on missing source data completes the attempt at once
through the error handler. -/
def loadImage (w : World) (e : ElemId) (src srcset sizes : Option String) : World :=
  let r := applyImageAttributes w.settings (w.dom e) src srcset sizes
  let w := { w with dom := updateDom w.dom e (fun _ => r.1) }
  match r.2.2 with
  | some msg =>
      let w := finishLoading w e false (some msg)
      { w with attempts := w.attempts ++
          [{ target := e, hasLoadListener := false, hasErrorListener := false,
             fired := true }] }
  | none =>
      { w with attempts := w.attempts ++
          [{ target := e, hasLoadListener := true, hasErrorListener := true,
             fired := false }] }

/-- `_loadIframe(iframeElement, src)`: attaches only a `load` listener
(no `error` listener — the iframe `error` event is unreliable); with no
source data, synthesises an immediate failure. -/
def loadIframe (w : World) (e : ElemId) (src : Option String) : World :=
  match src with
  | some v =>
      let w := { w with dom := updateDom w.dom e (fun el =>
        Element.removeAttribute { el with propSrc := some v } w.settings.src) }
      { w with attempts := w.attempts ++
          [{ target := e, hasLoadListener := true, hasErrorListener := false,
             fired := false }] }
  | none =>
      let w := finishLoading w e false (some "Iframe has no source (data-src)")
      { w with attempts := w.attempts ++
          [{ target := e, hasLoadListener := false, hasErrorListener := false,
             fired := true }] }

/-- `_loadVideo(videoElement, poster)`: applies `data-src` on each child
`<source>`, applies the poster, then either waits for
`canplaythrough`/`error` or synthesises a failure when no child source
had data. -/
def loadVideo (w : World) (e : ElemId) (poster : Option String) : World :=
  let s := w.settings
  let el0 := w.dom e
  let hasVideoSources := el0.sources.any (fun so => (so.getAttr s.src).isSome)
  let srcs := el0.sources.map (fun so =>
    match so.getAttr s.src with
    | some v => SourceEl.removeAttr { so with propSrc := some v } s.src
    | none => so)
  let el1 := { el0 with sources := srcs }
  let el2 :=
    match poster with
    | some v => Element.removeAttribute { el1 with propPoster := some v } s.poster
    | none => el1
  let w := { w with dom := updateDom w.dom e (fun _ => el2) }
  if hasVideoSources then
    { w with attempts := w.attempts ++
        [{ target := e, hasLoadListener := true, hasErrorListener := true,
           fired := false }] }
  else
    let w := finishLoading w e false (some "Video has no valid sources")
    { w with attempts := w.attempts ++
        [{ target := e, hasLoadListener := false, hasErrorListener := false,
           fired := true }] }

/-- `_loadPicture(pictureElement)`: with no child `<img>`, finishes at
once with an error; otherwise applies `data-media`/`sizes`/`srcset` on
each child `<source>` and delegates to `_loadImage` for the child img. -/
def loadPicture (w : World) (e : ElemId) : World :=
  let s := w.settings
  let el0 := w.dom e
  match el0.childImg with
  | none => finishLoading w e false (some "LazyLoad: No <img> tag found in <picture>.")
  | some imgId =>
      let srcs := el0.sources.map (fun so =>
        let so :=
          match so.getAttr "data-media" with
          | some v => SourceEl.removeAttr { so with propMedia := some v } "data-media"
          | none => so
        let so :=
          match so.getAttr s.sizes with
          | some v => SourceEl.removeAttr { so with propSizes := some v } s.sizes
          | none => so
        let so :=
          match so.getAttr s.srcset with
          | some v => SourceEl.removeAttr { so with propSrcset := some v } s.srcset
          | none => so
        so)
      let w := { w with dom := updateDom w.dom e (fun el => { el with sources := srcs }) }
      let img := w.dom imgId
      loadImage w imgId (img.getAttribute s.src) (img.getAttribute s.srcset)
        (img.getAttribute s.sizes)

/-- `_revealElement(element)`: fires `callback_enter`, then the actual
load (the optional `load_delay` timer is collapsed): clears a prior error
class and the element's `_errorElements` membership, adds the loading
class, reads the data attributes, and dispatches on the tag (background
images finish immediately with success iff `data-src` was present). -/
def revealElement (w : World) (e : ElemId) : World :=
  let s := w.settings
  let w := { w with log := w.log ++ [Cb.enter e] }
  let w := { w with dom := updateDom w.dom e (fun el =>
    if el.hasClass s.class_error then el.removeClass s.class_error else el) }
  let w := { w with errorElements := setDelete w.errorElements e }
  let w := { w with dom := updateDom w.dom e (fun el => el.addClass s.class_loading) }
  let el := w.dom e
  let src := el.getAttribute s.src
  let srcset := el.getAttribute s.srcset
  let sizes := el.getAttribute s.sizes
  let poster := el.getAttribute s.poster
  match el.tag with
  | Tag.img => loadImage w e src srcset sizes
  | Tag.picture => loadPicture w e
  | Tag.video => loadVideo w e poster
  | Tag.iframe => loadIframe w e src
  | Tag.other =>
      match src with
      | some v =>
          let w := { w with dom := updateDom w.dom e (fun el =>
            Element.removeAttribute { el with propBackgroundImage := some v } s.src) }
          finishLoading w e true none
      | none => finishLoading w e false none

/-- The browser firing a media event at the attempt with index `i`: the
handler runs only while the matching listener is attached, and the
`hasFired` latch makes completion happen at most once; completion
finishes the load and detaches both listeners. -/
def deliverEvent (w : World) (i : Nat) (ev : MediaEvent) : World :=
  match w.attempts.get? i with
  | none => w
  | some a =>
      let listens :=
        match ev with
        | MediaEvent.load => a.hasLoadListener
        | MediaEvent.error => a.hasErrorListener
      if listens then
        if a.fired then w
        else
          let success := (match ev with | MediaEvent.load => true | MediaEvent.error => false)
          let msg : Option String :=
            (match ev with | MediaEvent.load => none | MediaEvent.error => some "error")
          let w := finishLoading w a.target success msg
          let done : Attempt :=
            { a with fired := true, hasLoadListener := false, hasErrorListener := false }
          { w with attempts := w.attempts.set i done }
      else w

/-- Deliver a sequence of media events at attempt `i`. -/
def deliverEvents (w : World) (i : Nat) (evs : List MediaEvent) : World :=
  evs.foldl (fun w ev => deliverEvent w i ev) w

/-- `this._observer.observe(element)` (no-op on a null observer). -/
def observerObserve (w : World) (e : ElemId) : World :=
  match w.observer with
  | some l => { w with observer := some (setAdd l e) }
  | none => w

/-- `this._observer.unobserve(element)` (no-op on a null observer). -/
def observerUnobserve (w : World) (e : ElemId) : World :=
  match w.observer with
  | some l => { w with observer := some (setDelete l e) }
  | none => w

/-- The loop body shared verbatim by `init` (lines 450–461) and by
`addElements` (lines 504–514): for a queued element not yet handed to the
detector, either reveal it at once (`skip_invisible` and already
on-screen, dropping it from the queue) or register it with the detector
and mark it `_observedByIO` — note that the pending-queue entry is kept
in that second branch. -/
def observeQueuedElement (vis : ElemId → Bool) (w : World) (e : ElemId) : World :=
  if e ∈ w.observedByDetector then w
  else if w.settings.skip_invisible && vis e then
    let w := { w with elementsToObserve := setDelete w.elementsToObserve e }
    revealElement w e
  else
    let w := observerObserve w e
    { w with observedByDetector := setAdd w.observedByDetector e }

/-- One iteration of the `loadAllNow` loop. -/
def loadAllNowStep (w : World) (e : ElemId) : World :=
  if e ∈ w.elementsToObserve then
    let w :=
      if w.observer.isSome ∧ e ∈ w.observedByDetector then
        let w := observerUnobserve w e
        { w with observedByDetector := setDelete w.observedByDetector e }
      else w
    let w := { w with elementsToObserve := setDelete w.elementsToObserve e }
    revealElement w e
  else w

/-- `loadAllNow()`: snapshots the queue and reveals every element still
queued, unregistering it from the detector first. -/
def loadAllNow (w : World) : World :=
  w.elementsToObserve.foldl loadAllNowStep w

/-- `init()`: disconnects and re-creates the detector when one exists;
with the visibility capability unavailable (`hasDetector = false`,
covering both `!IS_BROWSER` and a missing `IntersectionObserver`),
force-loads everything and stops; otherwise walks the queue through
`observeQueuedElement`. -/
def init (w : World) (hasDetector : Bool) (vis : ElemId → Bool) : World :=
  let w :=
    match w.observer with
    | some _ => { w with observer := some [], observedByDetector := [] }
    | none => w
  if !hasDetector then loadAllNow w
  else
    let w := { w with observer := some [] }
    w.elementsToObserve.foldl (observeQueuedElement vis) w

/-- A candidate passed to `addElements`: `none` models a value that is
not an `HTMLElement`. -/
abbrev Candidate := Option ElemId

/-- The filtering loop of `addElements`: a candidate is admitted to the
pending queue only when it is a genuine element, is in neither tracking
set, does not carry the loaded class, and is not an error tracked by this
instance; a stale error class from elsewhere is stripped on admission.
Returns the updated world and the `newElementsAddedCount`. -/
def admitCandidate (acc : World × Nat) (c : Candidate) : World × Nat :=
  match c with
  | none => acc
  | some e =>
      let w := acc.1
      let s := w.settings
      let el := w.dom e
      let isLoaded := el.hasClass s.class_loaded
      let isKnownError := e ∈ w.errorElements
      let hasErrorClass := el.hasClass s.class_error
      if e ∉ w.elementsToObserve ∧ e ∉ w.observedByDetector ∧
          ¬isLoaded ∧ ¬isKnownError then
        let w :=
          if hasErrorClass then
            { w with dom := updateDom w.dom e (fun el => el.removeClass s.class_error) }
          else w
        ({ w with elementsToObserve := setAdd w.elementsToObserve e }, acc.2 + 1)
      else acc

/-- `addElements(elementsToAdd)`: filters candidates, then (only when
something was admitted) either walks the queue through the live detector
or, when the capability exists but no detector was built yet, triggers a
full `init`. -/
def addElements (w : World) (hasDetector : Bool) (vis : ElemId → Bool)
    (cands : List Candidate) : World :=
  let r := cands.foldl admitCandidate (w, 0)
  let w1 := r.1
  if r.2 > 0 then
    match w1.observer with
    | some _ => w1.elementsToObserve.foldl (observeQueuedElement vis) w1
    | none =>
        if hasDetector ∧ w1.elementsToObserve.length > 0 then init w1 hasDetector vis
        else w1
  else w1

/-- The per-element evaluation inside `retryFailedLoads`: skip an element
at or beyond `retry_max_attempts`, skip one still in backoff, otherwise
collect it and write back the incremented count together with
`nextAttemptAt = now + retry_backoff_base_ms * 2 ^ (count - 1)` computed
from the new count. -/
def retryEval (s : Settings) (now : Nat)
    (acc : List ElemId × List (ElemId × RetryInfo)) (e : ElemId) :
    List ElemId × List (ElemId × RetryInfo) :=
  let retryInfo := (rdGet acc.2 e).getD { count := 0, nextAttemptAt := 0 }
  if retryInfo.count ≥ s.retry_max_attempts then acc
  else if now < retryInfo.nextAttemptAt then acc
  else
    let c := retryInfo.count + 1
    (acc.1 ++ [e],
      rdSet acc.2 e
        { count := c, nextAttemptAt := now + s.retry_backoff_base_ms * 2 ^ (c - 1) })

/-- `retryFailedLoads()`: snapshots `_errorElements`, evaluates each
element against the backoff budget, and resubmits the collected ones
through `addElements` (without removing them from `_errorElements`
first — the code's comment defers that to `_revealElement`). -/
def retryFailedLoads (w : World) (hasDetector : Bool) (vis : ElemId → Bool)
    (now : Nat) : World :=
  if w.errorElements = [] then w
  else
    let r := w.errorElements.foldl (retryEval w.settings now) ([], w.retryData)
    let w := { w with retryData := r.2 }
    if r.1 = [] then w
    else addElements w hasDetector vis (r.1.map some)

/-- One visibility event as delivered to the detector callback:
`isVisible = none` models an entry without the IOv2 `isVisible` field. -/
structure ObserverEntry where
  target : ElemId
  isIntersecting : Bool
  isVisible : Option Bool
deriving DecidableEq, Repr

/-- One entry of the `IntersectionObserver` callback: stale targets (in
neither tracking set) are unregistered and ignored; otherwise the
effective-intersection decision (IOv2 `isVisible` overriding the
geometric flag when visibility tracking is active) or the
`skip_invisible` synchronous check triggers the reveal. -/
def onIntersectionEntry (trackVis : Bool) (vis : ElemId → Bool) (w : World)
    (en : ObserverEntry) : World :=
  let t := en.target
  if t ∉ w.elementsToObserve ∧ t ∉ w.observedByDetector then
    let w := observerUnobserve w t
    { w with observedByDetector := setDelete w.observedByDetector t }
  else
    let effective :=
      if trackVis then
        match en.isVisible with
        | some v => if en.isIntersecting && !v then false else if v then true else en.isIntersecting
        | none => en.isIntersecting
      else en.isIntersecting
    if effective || (w.settings.skip_invisible && vis t) then
      let w := observerUnobserve w t
      let w := { w with observedByDetector := setDelete w.observedByDetector t }
      let w := { w with elementsToObserve := setDelete w.elementsToObserve t }
      revealElement w t
    else w

/-- The detector callback over a batch of entries, in report order. -/
def onIntersection (trackVis : Bool) (vis : ElemId → Bool) (w : World)
    (entries : List ObserverEntry) : World :=
  entries.foldl (onIntersectionEntry trackVis vis) w

/-- `update(newElements)`: disconnects the detector, clears every
tracking set and the retry map, re-admits the supplied elements and
re-initialises when anything is queued. -/
def update (w : World) (hasDetector : Bool) (vis : ElemId → Bool)
    (cands : List Candidate) : World :=
  let w :=
    match w.observer with
    | some _ => { w with observer := some [] }
    | none => w
  let w := { w with elementsToObserve := [], observedByDetector := [],
                    errorElements := [], retryData := [] }
  let w := addElements w hasDetector vis cands
  if w.elementsToObserve.length > 0 then init w hasDetector vis else w

/-- `destroy()`: removes the online listener, disconnects and nulls the
detector, and clears all bookkeeping. -/
def destroy (w : World) : World :=
  let w := { w with onlineListener := false }
  let w := { w with observer := none }
  { w with elementsToObserve := [], observedByDetector := [],
           errorElements := [], retryData := [] }

def SubInv (w : World) : Prop :=
  ∀ x, x ∈ w.observedByDetector → x ∈ w.elementsToObserve

def RegistryInv (w : World) : Prop :=
  SubInv w ∧ (w.observer = none → w.observedByDetector = []) ∧
    w.elementsToObserve.Nodup

def mkElem (t : Tag) (ats : List (String × String)) : Element :=
  { tag := t, classes := ["lazyload"], attrs := ats, propSrc := none,
    propSrcset := none, propSizes := none, propPoster := none,
    propBackgroundImage := none, sources := [], childImg := none }

def baseWorld (d : ElemId → Element) : World :=
  { dom := d, settings := defaults, elementsToObserve := [],
    observedByDetector := [], errorElements := [], retryData := [],
    observer := some [], onlineListener := true, attempts := [], log := [] }

def erroredWorld : World :=
  { baseWorld (fun _ => mkElem Tag.img [("data-src", "a.jpg")]) with
    errorElements := [0] }

def onePendingWorld : World :=
  { baseWorld (fun _ => mkElem Tag.img [("data-src", "a.jpg")]) with
    elementsToObserve := [0], observer := none }

def c5World : World :=
  { baseWorld (fun _ => mkElem Tag.img [("data-src", "a.jpg")]) with
    settings := { defaults with skip_invisible := true } }

def mixedDom : ElemId → Element := fun i =>
  if i = 0 then mkElem Tag.img [("data-src", "a.jpg")]
  else if i = 1 then mkElem Tag.img []
  else if i = 2 then mkElem Tag.iframe [("data-src", "frame.html")]
  else mkElem Tag.other [("data-src", "bg.jpg")]

def fallbackWorld : World :=
  { baseWorld mixedDom with elementsToObserve := [0, 1, 2, 3], observer := none }

def countLoadCb (l : List Cb) (e : ElemId) : Nat :=
  l.countP (fun c => match c with | Cb.load x => decide (x = e) | _ => false)

def countErrorCb (l : List Cb) (e : ElemId) : Nat :=
  l.countP (fun c => match c with | Cb.error x _ => decide (x = e) | _ => false)

def countFinishCb (l : List Cb) (e : ElemId) : Nat :=
  l.countP (fun c => match c with | Cb.finish x => decide (x = e) | _ => false)

/-- A world for exercising the frame of `loadAllNow`: a live detector
watching elements 1 and 2, element 1 queued, element 5 errored with retry
metadata. -/
def c10World : World :=
  { baseWorld (fun _ => mkElem Tag.img [("data-src", "a.jpg")]) with
    elementsToObserve := [1], observedByDetector := [1], observer := some [1, 2],
    errorElements := [5], retryData := [(5, { count := 2, nextAttemptAt := 9 })] }

/-! ### Basic lemmas about the set and map primitives -/

lemma mem_setAdd (s : List ElemId) (x a : ElemId) :
    a ∈ setAdd s x ↔ a ∈ s ∨ a = x := by
  unfold setAdd
  split
  · constructor
    · exact fun h' => Or.inl h'
    · rintro (h' | rfl)
      · exact h'
      · assumption
  · simp

lemma mem_setDelete (s : List ElemId) (x a : ElemId) :
    a ∈ setDelete s x ↔ a ∈ s ∧ a ≠ x := by
  simp [setDelete]

lemma rdGet_cons (p : ElemId × RetryInfo) (t : List (ElemId × RetryInfo)) (a : ElemId) :
    rdGet (p :: t) a = if p.1 = a then some p.2 else rdGet t a := by
  unfold rdGet
  rw [List.find?_cons]
  by_cases h : p.1 = a <;> simp [h]

lemma rdGet_rdDelete_ne (rd : List (ElemId × RetryInfo)) (x a : ElemId)
    (h : a ≠ x) : rdGet (rdDelete rd x) a = rdGet rd a := by
  induction rd with
  | nil => rfl
  | cons p t ih =>
      unfold rdDelete at ih ⊢
      rw [List.filter_cons]
      by_cases hp : p.1 = x
      · rw [if_neg (by simp [hp]), rdGet_cons, if_neg (fun hh => h (hh.symm.trans hp))]
        exact ih
      · rw [if_pos (by simp [hp]), rdGet_cons, rdGet_cons]
        by_cases hpa : p.1 = a
        · rw [if_pos hpa, if_pos hpa]
        · rw [if_neg hpa, if_neg hpa]
          exact ih

/-! ### Frame lemmas: the media loader never touches the registry fields
(`_elementsToObserve`, `_observedByIO`, `_observer`, the online listener,
the settings). -/

lemma finishLoading_elems (w : World) (e : ElemId) (b : Bool) (m : Option String) :
    (finishLoading w e b m).elementsToObserve = w.elementsToObserve := by
  unfold finishLoading; split <;> simp

lemma finishLoading_observed (w : World) (e : ElemId) (b : Bool) (m : Option String) :
    (finishLoading w e b m).observedByDetector = w.observedByDetector := by
  unfold finishLoading; split <;> simp

lemma finishLoading_observer (w : World) (e : ElemId) (b : Bool) (m : Option String) :
    (finishLoading w e b m).observer = w.observer := by
  unfold finishLoading; split <;> simp

lemma finishLoading_online (w : World) (e : ElemId) (b : Bool) (m : Option String) :
    (finishLoading w e b m).onlineListener = w.onlineListener := by
  unfold finishLoading; split <;> simp

lemma finishLoading_settings (w : World) (e : ElemId) (b : Bool) (m : Option String) :
    (finishLoading w e b m).settings = w.settings := by
  unfold finishLoading; split <;> simp

lemma loadImage_elems (w : World) (e : ElemId) (a b c : Option String) :
    (loadImage w e a b c).elementsToObserve = w.elementsToObserve := by
  simp only [loadImage]; split <;> simp [finishLoading_elems]

lemma loadImage_observed (w : World) (e : ElemId) (a b c : Option String) :
    (loadImage w e a b c).observedByDetector = w.observedByDetector := by
  simp only [loadImage]; split <;> simp [finishLoading_observed]

lemma loadImage_observer (w : World) (e : ElemId) (a b c : Option String) :
    (loadImage w e a b c).observer = w.observer := by
  simp only [loadImage]; split <;> simp [finishLoading_observer]

lemma loadImage_online (w : World) (e : ElemId) (a b c : Option String) :
    (loadImage w e a b c).onlineListener = w.onlineListener := by
  simp only [loadImage]; split <;> simp [finishLoading_online]

lemma loadImage_settings (w : World) (e : ElemId) (a b c : Option String) :
    (loadImage w e a b c).settings = w.settings := by
  simp only [loadImage]; split <;> simp [finishLoading_settings]

lemma loadIframe_elems (w : World) (e : ElemId) (a : Option String) :
    (loadIframe w e a).elementsToObserve = w.elementsToObserve := by
  simp only [loadIframe]; split <;> simp [finishLoading_elems]

lemma loadIframe_observed (w : World) (e : ElemId) (a : Option String) :
    (loadIframe w e a).observedByDetector = w.observedByDetector := by
  simp only [loadIframe]; split <;> simp [finishLoading_observed]

lemma loadIframe_observer (w : World) (e : ElemId) (a : Option String) :
    (loadIframe w e a).observer = w.observer := by
  simp only [loadIframe]; split <;> simp [finishLoading_observer]

lemma loadIframe_online (w : World) (e : ElemId) (a : Option String) :
    (loadIframe w e a).onlineListener = w.onlineListener := by
  simp only [loadIframe]; split <;> simp [finishLoading_online]

lemma loadIframe_settings (w : World) (e : ElemId) (a : Option String) :
    (loadIframe w e a).settings = w.settings := by
  simp only [loadIframe]; split <;> simp [finishLoading_settings]

lemma loadVideo_elems (w : World) (e : ElemId) (a : Option String) :
    (loadVideo w e a).elementsToObserve = w.elementsToObserve := by
  simp only [loadVideo]; split <;> simp [finishLoading_elems]

lemma loadVideo_observed (w : World) (e : ElemId) (a : Option String) :
    (loadVideo w e a).observedByDetector = w.observedByDetector := by
  simp only [loadVideo]; split <;> simp [finishLoading_observed]

lemma loadVideo_observer (w : World) (e : ElemId) (a : Option String) :
    (loadVideo w e a).observer = w.observer := by
  simp only [loadVideo]; split <;> simp [finishLoading_observer]

lemma loadVideo_online (w : World) (e : ElemId) (a : Option String) :
    (loadVideo w e a).onlineListener = w.onlineListener := by
  simp only [loadVideo]; split <;> simp [finishLoading_online]

lemma loadVideo_settings (w : World) (e : ElemId) (a : Option String) :
    (loadVideo w e a).settings = w.settings := by
  simp only [loadVideo]; split <;> simp [finishLoading_settings]

lemma loadPicture_elems (w : World) (e : ElemId) :
    (loadPicture w e).elementsToObserve = w.elementsToObserve := by
  simp only [loadPicture]; split <;> simp [finishLoading_elems, loadImage_elems]

lemma loadPicture_observed (w : World) (e : ElemId) :
    (loadPicture w e).observedByDetector = w.observedByDetector := by
  simp only [loadPicture]; split <;> simp [finishLoading_observed, loadImage_observed]

lemma loadPicture_observer (w : World) (e : ElemId) :
    (loadPicture w e).observer = w.observer := by
  simp only [loadPicture]; split <;> simp [finishLoading_observer, loadImage_observer]

lemma loadPicture_online (w : World) (e : ElemId) :
    (loadPicture w e).onlineListener = w.onlineListener := by
  simp only [loadPicture]; split <;> simp [finishLoading_online, loadImage_online]

lemma loadPicture_settings (w : World) (e : ElemId) :
    (loadPicture w e).settings = w.settings := by
  simp only [loadPicture]; split <;> simp [finishLoading_settings, loadImage_settings]

lemma revealElement_elems (w : World) (e : ElemId) :
    (revealElement w e).elementsToObserve = w.elementsToObserve := by
  simp only [revealElement]
  split
  · simp [loadImage_elems]
  · simp [loadPicture_elems]
  · simp [loadVideo_elems]
  · simp [loadIframe_elems]
  · split <;> simp [finishLoading_elems]

lemma revealElement_observed (w : World) (e : ElemId) :
    (revealElement w e).observedByDetector = w.observedByDetector := by
  simp only [revealElement]
  split
  · simp [loadImage_observed]
  · simp [loadPicture_observed]
  · simp [loadVideo_observed]
  · simp [loadIframe_observed]
  · split <;> simp [finishLoading_observed]

lemma revealElement_observer (w : World) (e : ElemId) :
    (revealElement w e).observer = w.observer := by
  simp only [revealElement]
  split
  · simp [loadImage_observer]
  · simp [loadPicture_observer]
  · simp [loadVideo_observer]
  · simp [loadIframe_observer]
  · split <;> simp [finishLoading_observer]

lemma revealElement_online (w : World) (e : ElemId) :
    (revealElement w e).onlineListener = w.onlineListener := by
  simp only [revealElement]
  split
  · simp [loadImage_online]
  · simp [loadPicture_online]
  · simp [loadVideo_online]
  · simp [loadIframe_online]
  · split <;> simp [finishLoading_online]

lemma revealElement_settings (w : World) (e : ElemId) :
    (revealElement w e).settings = w.settings := by
  simp only [revealElement]
  split
  · simp [loadImage_settings]
  · simp [loadPicture_settings]
  · simp [loadVideo_settings]
  · simp [loadIframe_settings]
  · split <;> simp [finishLoading_settings]

/-! ### The loader never rewires the DOM: `childImg` is invariant. -/

lemma addClass_childImg (el : Element) (c : String) :
    (el.addClass c).childImg = el.childImg := by
  unfold Element.addClass
  split
  · rfl
  · split <;> rfl

lemma removeClass_childImg (el : Element) (c : String) :
    (el.removeClass c).childImg = el.childImg := by
  unfold Element.removeClass
  split <;> rfl

lemma removeAttribute_childImg (el : Element) (a : String) :
    (el.removeAttribute a).childImg = el.childImg := rfl

lemma applyImageAttributes_childImg (s : Settings) (el : Element)
    (a b c : Option String) :
    (applyImageAttributes s el a b c).1.childImg = el.childImg := by
  unfold applyImageAttributes
  cases c <;> cases b <;> cases a <;> rfl

lemma finishLoading_childImg (w : World) (e : ElemId) (b : Bool) (m : Option String)
    (y : ElemId) : ((finishLoading w e b m).dom y).childImg = (w.dom y).childImg := by
  unfold finishLoading
  by_cases hy : y = e <;>
    split <;>
      simp [updateDom, hy, removeAttribute_childImg, addClass_childImg,
        removeClass_childImg]

lemma loadImage_childImg (w : World) (e : ElemId) (a b c : Option String)
    (y : ElemId) : ((loadImage w e a b c).dom y).childImg = (w.dom y).childImg := by
  simp only [loadImage]
  by_cases hy : y = e <;>
    split <;>
      simp [finishLoading_childImg, updateDom, hy, applyImageAttributes_childImg,
        removeAttribute_childImg]

lemma loadIframe_childImg (w : World) (e : ElemId) (a : Option String)
    (y : ElemId) : ((loadIframe w e a).dom y).childImg = (w.dom y).childImg := by
  simp only [loadIframe]
  by_cases hy : y = e <;>
    split <;> simp [finishLoading_childImg, updateDom, hy, removeAttribute_childImg]

lemma loadVideo_childImg (w : World) (e : ElemId) (a : Option String)
    (y : ElemId) : ((loadVideo w e a).dom y).childImg = (w.dom y).childImg := by
  simp only [loadVideo]
  by_cases hy : y = e <;>
    split <;> (try split) <;>
      simp [finishLoading_childImg, updateDom, hy, removeAttribute_childImg]

lemma loadPicture_childImg (w : World) (e : ElemId)
    (y : ElemId) : ((loadPicture w e).dom y).childImg = (w.dom y).childImg := by
  simp only [loadPicture]
  split
  · simp [finishLoading_childImg]
  · by_cases hy : y = e <;> simp [loadImage_childImg, updateDom, hy]

lemma classGuard_childImg (el : Element) (c : String) :
    (if el.hasClass c then el.removeClass c else el).childImg = el.childImg := by
  split <;> simp [removeClass_childImg]

lemma revealElement_childImg (w : World) (e : ElemId) (y : ElemId) :
    ((revealElement w e).dom y).childImg = (w.dom y).childImg := by
  simp only [revealElement]
  split
  · by_cases hy : y = e <;>
      simp [loadImage_childImg, updateDom, hy, addClass_childImg, classGuard_childImg]
  · by_cases hy : y = e <;>
      simp [loadPicture_childImg, updateDom, hy, addClass_childImg, classGuard_childImg]
  · by_cases hy : y = e <;>
      simp [loadVideo_childImg, updateDom, hy, addClass_childImg, classGuard_childImg]
  · by_cases hy : y = e <;>
      simp [loadIframe_childImg, updateDom, hy, addClass_childImg, classGuard_childImg]
  · split <;>
      by_cases hy : y = e <;>
        simp [finishLoading_childImg, updateDom, hy, addClass_childImg,
          classGuard_childImg, removeAttribute_childImg]

/-! ### The loader touches error tracking and retry metadata only for the
element it is finishing (for a `<picture>`, the delegated child `<img>`). -/

lemma finishLoading_error_mem (w : World) (e : ElemId) (b : Bool) (m : Option String)
    (x : ElemId) (hx : x ≠ e) :
    (x ∈ (finishLoading w e b m).errorElements ↔ x ∈ w.errorElements) := by
  unfold finishLoading
  split <;> simp [mem_setAdd, mem_setDelete, hx]

lemma finishLoading_rdGet (w : World) (e : ElemId) (b : Bool) (m : Option String)
    (x : ElemId) (hx : x ≠ e) :
    rdGet (finishLoading w e b m).retryData x = rdGet w.retryData x := by
  unfold finishLoading
  split <;> simp [rdGet_rdDelete_ne _ _ _ hx]

lemma loadImage_error_mem (w : World) (e : ElemId) (a b c : Option String)
    (x : ElemId) (hx : x ≠ e) :
    (x ∈ (loadImage w e a b c).errorElements ↔ x ∈ w.errorElements) := by
  simp only [loadImage]
  split <;> simp [finishLoading_error_mem _ _ _ _ _ hx]

lemma loadImage_rdGet (w : World) (e : ElemId) (a b c : Option String)
    (x : ElemId) (hx : x ≠ e) :
    rdGet (loadImage w e a b c).retryData x = rdGet w.retryData x := by
  simp only [loadImage]
  split <;> simp [finishLoading_rdGet _ _ _ _ _ hx]

lemma loadIframe_error_mem (w : World) (e : ElemId) (a : Option String)
    (x : ElemId) (hx : x ≠ e) :
    (x ∈ (loadIframe w e a).errorElements ↔ x ∈ w.errorElements) := by
  simp only [loadIframe]
  split <;> simp [finishLoading_error_mem _ _ _ _ _ hx]

lemma loadIframe_rdGet (w : World) (e : ElemId) (a : Option String)
    (x : ElemId) (hx : x ≠ e) :
    rdGet (loadIframe w e a).retryData x = rdGet w.retryData x := by
  simp only [loadIframe]
  split <;> simp [finishLoading_rdGet _ _ _ _ _ hx]

lemma loadVideo_error_mem (w : World) (e : ElemId) (a : Option String)
    (x : ElemId) (hx : x ≠ e) :
    (x ∈ (loadVideo w e a).errorElements ↔ x ∈ w.errorElements) := by
  simp only [loadVideo]
  split <;> simp [finishLoading_error_mem _ _ _ _ _ hx]

lemma loadVideo_rdGet (w : World) (e : ElemId) (a : Option String)
    (x : ElemId) (hx : x ≠ e) :
    rdGet (loadVideo w e a).retryData x = rdGet w.retryData x := by
  simp only [loadVideo]
  split <;> simp [finishLoading_rdGet _ _ _ _ _ hx]

lemma loadPicture_error_mem (w : World) (e : ElemId)
    (x : ElemId) (hx : x ≠ e) (hc : (w.dom e).childImg ≠ some x) :
    (x ∈ (loadPicture w e).errorElements ↔ x ∈ w.errorElements) := by
  simp only [loadPicture]
  split
  · simp [finishLoading_error_mem _ _ _ _ _ hx]
  case _ imgId heq =>
    have hxi : x ≠ imgId := fun hh => hc (by rw [heq, hh])
    simp [loadImage_error_mem _ _ _ _ _ _ hxi]

lemma loadPicture_rdGet (w : World) (e : ElemId)
    (x : ElemId) (hx : x ≠ e) (hc : (w.dom e).childImg ≠ some x) :
    rdGet (loadPicture w e).retryData x = rdGet w.retryData x := by
  simp only [loadPicture]
  split
  · simp [finishLoading_rdGet _ _ _ _ _ hx]
  case _ imgId heq =>
    have hxi : x ≠ imgId := fun hh => hc (by rw [heq, hh])
    simp [loadImage_rdGet _ _ _ _ _ _ hxi]

lemma revealElement_error_mem (w : World) (e : ElemId)
    (x : ElemId) (hx : x ≠ e) (hc : (w.dom e).childImg ≠ some x) :
    (x ∈ (revealElement w e).errorElements ↔ x ∈ w.errorElements) := by
  simp only [revealElement]
  split
  · rw [loadImage_error_mem _ _ _ _ _ _ hx]
    simp [mem_setDelete, hx]
  case _ heq =>
    rw [loadPicture_error_mem]
    · simp [mem_setDelete, hx]
    · exact hx
    · simpa [updateDom, addClass_childImg, classGuard_childImg] using hc
  · rw [loadVideo_error_mem _ _ _ _ hx]
    simp [mem_setDelete, hx]
  · rw [loadIframe_error_mem _ _ _ _ hx]
    simp [mem_setDelete, hx]
  · split <;>
      (rw [finishLoading_error_mem _ _ _ _ _ hx]; simp [mem_setDelete, hx])

lemma revealElement_rdGet (w : World) (e : ElemId)
    (x : ElemId) (hx : x ≠ e) (hc : (w.dom e).childImg ≠ some x) :
    rdGet (revealElement w e).retryData x = rdGet w.retryData x := by
  simp only [revealElement]
  split
  · rw [loadImage_rdGet _ _ _ _ _ _ hx]
  case _ heq =>
    rw [loadPicture_rdGet]
    · exact hx
    · simpa [updateDom, addClass_childImg, classGuard_childImg] using hc
  · rw [loadVideo_rdGet _ _ _ _ hx]
  · rw [loadIframe_rdGet _ _ _ _ hx]
  · split <;> rw [finishLoading_rdGet _ _ _ _ _ hx]




lemma nodup_setAdd (s : List ElemId) (x : ElemId) (h : s.Nodup) :
    (setAdd s x).Nodup := by
  unfold setAdd
  split
  · exact h
  case _ hx => simp [List.nodup_append, h, hx]

lemma nodup_setDelete (s : List ElemId) (x : ElemId) (h : s.Nodup) :
    (setDelete s x).Nodup := List.Nodup.filter _ h

lemma foldl_inv {σ α : Type} (P : σ → Prop) (f : σ → α → σ) :
    ∀ (l : List α) (s : σ), (∀ s' a, a ∈ l → P s' → P (f s' a)) → P s →
      P (l.foldl f s)
  | [], _, _, hs => hs
  | a :: t, s, h, hs =>
      foldl_inv P f t (f s a) (fun s' b hb => h s' b (List.mem_cons_of_mem a hb))
        (h s a (List.mem_cons_self a t) hs)

lemma observerUnobserve_elems (w : World) (e : ElemId) :
    (observerUnobserve w e).elementsToObserve = w.elementsToObserve := by
  unfold observerUnobserve
  cases hw : w.observer <;> simp [hw]

lemma observerUnobserve_observed (w : World) (e : ElemId) :
    (observerUnobserve w e).observedByDetector = w.observedByDetector := by
  unfold observerUnobserve
  cases hw : w.observer <;> simp [hw]

lemma observerUnobserve_observer_isSome (w : World) (e : ElemId) :
    (observerUnobserve w e).observer.isSome = w.observer.isSome := by
  unfold observerUnobserve
  cases hw : w.observer <;> simp [hw]

lemma observeLoop_inv (vis : ElemId → Bool) :
    ∀ (l : List ElemId) (w : World), RegistryInv w → w.observer.isSome →
      (∀ y ∈ l, y ∈ w.elementsToObserve) → l.Nodup →
      RegistryInv (l.foldl (observeQueuedElement vis) w) ∧
        (l.foldl (observeQueuedElement vis) w).observer.isSome
  | [], w, hinv, hobs, _, _ => ⟨hinv, hobs⟩
  | a :: t, w, hinv, hobs, hl, hnd => by
      obtain ⟨hsub, hnone, hndp⟩ := hinv
      rw [List.foldl_cons]
      have hstep : RegistryInv (observeQueuedElement vis w a) ∧
          (observeQueuedElement vis w a).observer.isSome ∧
          (∀ y ∈ t, y ∈ (observeQueuedElement vis w a).elementsToObserve) := by
        simp only [observeQueuedElement]
        split
        · exact ⟨⟨hsub, hnone, hndp⟩, hobs,
            fun y hy => hl y (List.mem_cons_of_mem a hy)⟩
        case _ hnotobs =>
          split
          · refine ⟨⟨?_, ?_, ?_⟩, ?_, ?_⟩
            · intro x hx
              rw [revealElement_observed] at hx
              rw [revealElement_elems]
              simp only [mem_setDelete]
              exact ⟨hsub x hx, fun hxa => hnotobs (hxa ▸ hx)⟩
            · intro hno
              rw [revealElement_observer] at hno
              rw [revealElement_observed]
              exact hnone hno
            · rw [revealElement_elems]
              exact nodup_setDelete _ _ hndp
            · rw [revealElement_observer]
              exact hobs
            · intro y hy
              rw [revealElement_elems]
              simp only [mem_setDelete]
              exact ⟨hl y (List.mem_cons_of_mem a hy),
                fun hya => (List.nodup_cons.mp hnd).1 (hya ▸ hy)⟩
          · refine ⟨⟨?_, ?_, ?_⟩, ?_, ?_⟩
            · intro x hx
              simp only [observerObserve]
              rcases hw : w.observer with _ | lw <;> simp only [hw] <;>
                · simp only [observerObserve, hw] at hx
                  rw [mem_setAdd] at hx
                  rcases hx with hx | rfl
                  · exact hsub x hx
                  · exact hl x (List.mem_cons_self x t)
            · intro hno
              exfalso
              rcases hw : w.observer with _ | lw
              · rw [hw] at hobs
                simp at hobs
              · simp only [observerObserve, hw] at hno
                cases hno
            · simp only [observerObserve]
              rcases hw : w.observer with _ | lw <;> simp <;> exact hndp
            · simp only [observerObserve]
              rcases hw : w.observer with _ | lw
              · rw [hw] at hobs
                simp at hobs
              · simp
            · intro y hy
              simp only [observerObserve]
              rcases hw : w.observer with _ | lw <;> simp <;>
                exact hl y (List.mem_cons_of_mem a hy)
      obtain ⟨h1, h2, h3⟩ := hstep
      exact observeLoop_inv vis t _ h1 h2 h3 (List.nodup_cons.mp hnd).2

lemma loadAllNowStep_inv (w : World) (a : ElemId) (hinv : RegistryInv w) :
    RegistryInv (loadAllNowStep w a) := by
  obtain ⟨hsub, hnone, hndp⟩ := hinv
  simp only [loadAllNowStep]
  split
  case _ hmem =>
    split
    case _ hcond =>
      refine ⟨?_, ?_, ?_⟩
      · intro x hx
        rw [revealElement_observed] at hx
        rw [revealElement_elems, observerUnobserve_elems]
        simp only [mem_setDelete, observerUnobserve_observed] at hx
        simp only [mem_setDelete]
        exact ⟨hsub x hx.1, hx.2⟩
      · intro hno
        rw [revealElement_observed]
        simp only [observerUnobserve_observed]
        rw [revealElement_observer] at hno
        rcases hw : w.observer with _ | lw
        · rw [hnone hw]
          rfl
        · simp only [observerUnobserve, hw] at hno
          cases hno
      · rw [revealElement_elems, observerUnobserve_elems]
        exact nodup_setDelete _ _ hndp
    case _ hcond =>
      refine ⟨?_, ?_, ?_⟩
      · intro x hx
        rw [revealElement_observed] at hx
        rw [revealElement_elems]
        simp only [mem_setDelete]
        refine ⟨hsub x hx, ?_⟩
        intro hxa
        subst hxa
        rcases hw : w.observer with _ | lw
        · rw [hnone hw] at hx
          cases hx
        · exact hcond ⟨by simp [hw], hx⟩
      · intro hno
        rw [revealElement_observer] at hno
        rw [revealElement_observed]
        exact hnone hno
      · rw [revealElement_elems]
        exact nodup_setDelete _ _ hndp
  · exact ⟨hsub, hnone, hndp⟩

lemma loadAllNow_inv (w : World) (hinv : RegistryInv w) :
    RegistryInv (loadAllNow w) := by
  unfold loadAllNow
  exact foldl_inv RegistryInv loadAllNowStep _ w
    (fun s a _ hs => loadAllNowStep_inv s a hs) hinv

lemma initLoop_inv (vis : ElemId → Bool) {w : World} (hsub : SubInv w)
    (hndp : w.elementsToObserve.Nodup) (hobs : w.observer.isSome = true) :
    RegistryInv (w.elementsToObserve.foldl (observeQueuedElement vis) w) :=
  (observeLoop_inv vis _ w
    ⟨hsub, fun hh => by rw [hh] at hobs; simp at hobs, hndp⟩
    hobs (fun y hy => hy) hndp).1

lemma init_inv (w : World) (hasDetector : Bool) (vis : ElemId → Bool)
    (hinv : RegistryInv w) : RegistryInv (init w hasDetector vis) := by
  obtain ⟨hsub, hnone, hndp⟩ := hinv
  simp only [init]
  rcases hw : w.observer with _ | l <;> simp only [hw] <;> split
  · exact loadAllNow_inv _ ⟨hsub, hnone, hndp⟩
  · exact initLoop_inv vis hsub hndp rfl
  · exact loadAllNow_inv _ ⟨fun x hx => by simp at hx, fun _ => rfl, hndp⟩
  · exact initLoop_inv vis (fun x hx => by simp at hx) hndp rfl


lemma admitCandidate_inv (w0 : World) (acc : World × Nat) (c : Candidate)
    (h : RegistryInv acc.1 ∧ acc.1.observer = w0.observer) :
    RegistryInv (admitCandidate acc c).1 ∧
      (admitCandidate acc c).1.observer = w0.observer := by
  obtain ⟨⟨hsub, hnone, hndp⟩, hobs⟩ := h
  rcases c with _ | e
  · exact ⟨⟨hsub, hnone, hndp⟩, hobs⟩
  · simp only [admitCandidate]
    split
    case _ hcond =>
      split <;>
        exact ⟨⟨fun x hx => (mem_setAdd _ _ _).mpr (Or.inl (hsub x hx)),
          hnone, nodup_setAdd _ _ hndp⟩, hobs⟩
    case _ => exact ⟨⟨hsub, hnone, hndp⟩, hobs⟩

lemma admitLoop_inv (w0 : World) (cands : List Candidate) (acc : World × Nat)
    (h : RegistryInv acc.1 ∧ acc.1.observer = w0.observer) :
    RegistryInv (cands.foldl admitCandidate acc).1 ∧
      (cands.foldl admitCandidate acc).1.observer = w0.observer :=
  foldl_inv (fun p => RegistryInv p.1 ∧ p.1.observer = w0.observer)
    admitCandidate cands acc (fun s a _ hs => admitCandidate_inv w0 s a hs) h

lemma addElements_inv (w : World) (hasDetector : Bool) (vis : ElemId → Bool)
    (cands : List Candidate) (hinv : RegistryInv w) :
    RegistryInv (addElements w hasDetector vis cands) := by
  simp only [addElements]
  have hloop := admitLoop_inv w cands (w, 0) ⟨hinv, rfl⟩
  obtain ⟨hinv1, hobs1⟩ := hloop
  obtain ⟨hsub1, hnone1, hndp1⟩ := hinv1
  split
  · split
    case _ l heq =>
      exact initLoop_inv vis hsub1 hndp1 (by rw [heq]; rfl)
    case _ heq =>
      split
      · exact init_inv _ _ _ ⟨hsub1, hnone1, hndp1⟩
      · exact ⟨hsub1, hnone1, hndp1⟩
  · exact ⟨hsub1, hnone1, hndp1⟩

lemma retryFailedLoads_inv (w : World) (hasDetector : Bool) (vis : ElemId → Bool)
    (now : Nat) (hinv : RegistryInv w) :
    RegistryInv (retryFailedLoads w hasDetector vis now) := by
  obtain ⟨hsub, hnone, hndp⟩ := hinv
  simp only [retryFailedLoads]
  split
  · exact ⟨hsub, hnone, hndp⟩
  · split
    · exact ⟨hsub, hnone, hndp⟩
    · exact addElements_inv _ _ _ _ ⟨hsub, hnone, hndp⟩

lemma registryInv_ite (c : Prop) [Decidable c] (w1 w2 : World)
    (h1 : c → RegistryInv w1) (h2 : ¬c → RegistryInv w2) :
    RegistryInv (if c then w1 else w2) := by
  split
  case _ hc => exact h1 hc
  case _ hc => exact h2 hc

lemma onIntersectionEntry_inv (trackVis : Bool) (vis : ElemId → Bool)
    (w : World) (en : ObserverEntry) (hinv : RegistryInv w) :
    RegistryInv (onIntersectionEntry trackVis vis w en) := by
  obtain ⟨hsub, hnone, hndp⟩ := hinv
  simp only [onIntersectionEntry]
  split
  case _ hstale =>
    refine ⟨?_, ?_, ?_⟩
    · intro x hx
      simp only [observerUnobserve_observed, mem_setDelete] at hx
      rw [observerUnobserve_elems]
      exact hsub x hx.1
    · intro hno
      simp only [observerUnobserve_observed]
      rcases hw : w.observer with _ | lw
      · rw [hnone hw]
        rfl
      · simp only [observerUnobserve, hw] at hno
        cases hno
    · rw [observerUnobserve_elems]
      exact hndp
  · apply registryInv_ite
    · intro _
      refine ⟨?_, ?_, ?_⟩
      · intro x hx
        rw [revealElement_observed] at hx
        rw [revealElement_elems]
        simp only [observerUnobserve_observed, mem_setDelete] at hx
        simp only [observerUnobserve_elems, mem_setDelete]
        exact ⟨hsub x hx.1, hx.2⟩
      · intro hno
        rw [revealElement_observed]
        rw [revealElement_observer] at hno
        simp only [observerUnobserve_observed]
        rcases hw : w.observer with _ | lw
        · rw [hnone hw]
          rfl
        · simp only [observerUnobserve, hw] at hno
          cases hno
      · rw [revealElement_elems]
        simp only [observerUnobserve_elems]
        exact nodup_setDelete _ _ hndp
    · intro _
      exact ⟨hsub, hnone, hndp⟩

lemma onIntersection_inv (trackVis : Bool) (vis : ElemId → Bool) (w : World)
    (entries : List ObserverEntry) (hinv : RegistryInv w) :
    RegistryInv (onIntersection trackVis vis w entries) :=
  foldl_inv RegistryInv (onIntersectionEntry trackVis vis) entries w
    (fun s a _ hs => onIntersectionEntry_inv trackVis vis s a hs) hinv

lemma update_inv (w : World) (hasDetector : Bool) (vis : ElemId → Bool)
    (cands : List Candidate) :
    RegistryInv (update w hasDetector vis cands) := by
  simp only [update]
  rcases hw : w.observer with _ | l <;> simp only [hw] <;> split
  · exact init_inv _ _ _ (addElements_inv _ _ _ _
      ⟨fun x hx => by simp at hx, fun _ => rfl, List.nodup_nil⟩)
  · exact addElements_inv _ _ _ _
      ⟨fun x hx => by simp at hx, fun _ => rfl, List.nodup_nil⟩
  · exact init_inv _ _ _ (addElements_inv _ _ _ _
      ⟨fun x hx => by simp at hx, fun _ => rfl, List.nodup_nil⟩)
  · exact addElements_inv _ _ _ _
      ⟨fun x hx => by simp at hx, fun _ => rfl, List.nodup_nil⟩

lemma destroy_inv (w : World) : RegistryInv (destroy w) :=
  ⟨fun x hx => by simp [destroy] at hx, fun _ => rfl, List.nodup_nil⟩


lemma getAttr_removeAttr_self (el : Element) (a : String) :
    (el.removeAttribute a).getAttribute a = none := by
  simp only [Element.getAttribute, Element.removeAttribute]
  rw [Option.map_eq_none', List.find?_eq_none]
  intro p hp
  simp only [List.mem_filter, decide_eq_true_eq] at hp
  simp [hp.2]

lemma getAttr_none_removeAttr (el : Element) (a b : String)
    (h : el.getAttribute a = none) :
    (el.removeAttribute b).getAttribute a = none := by
  simp only [Element.getAttribute, Element.removeAttribute] at h ⊢
  rw [Option.map_eq_none', List.find?_eq_none]
  rw [Option.map_eq_none', List.find?_eq_none] at h
  intro p hp
  exact h p (List.mem_of_mem_filter hp)



lemma getAttr_set_propSizes (el : Element) (v : Option String) (a : String) :
    ({ el with propSizes := v } : Element).getAttribute a = el.getAttribute a := rfl

lemma getAttr_set_propSrcset (el : Element) (v : Option String) (a : String) :
    ({ el with propSrcset := v } : Element).getAttribute a = el.getAttribute a := rfl

lemma getAttr_set_propSrc (el : Element) (v : Option String) (a : String) :
    ({ el with propSrc := v } : Element).getAttribute a = el.getAttribute a := rfl


lemma deliverEvent_inert (w : World) (i : Nat) (ev : MediaEvent) (a : Attempt)
    (h : w.attempts.get? i = some a) (hl : a.hasLoadListener = false)
    (he : a.hasErrorListener = false) : deliverEvent w i ev = w := by
  unfold deliverEvent
  rw [h]
  cases ev <;> simp [hl, he]

lemma deliverEvents_inert (w : World) (i : Nat) (evs : List MediaEvent) (a : Attempt)
    (h : w.attempts.get? i = some a) (hl : a.hasLoadListener = false)
    (he : a.hasErrorListener = false) : deliverEvents w i evs = w := by
  induction evs with
  | nil => rfl
  | cons ev rest ih =>
      show deliverEvents (deliverEvent w i ev) i rest = w
      rw [deliverEvent_inert w i ev a h hl he]
      exact ih

lemma finishLoading_log (w : World) (e : ElemId) (b : Bool) (m : Option String) :
    (finishLoading w e b m).log =
      w.log ++ (if b then [Cb.load e] else [Cb.error e (m.getD "Unknown error")]) ++
        [Cb.finish e] := by
  unfold finishLoading
  split <;> simp

lemma finishLoading_attempts (w : World) (e : ElemId) (b : Bool) (m : Option String) :
    (finishLoading w e b m).attempts = w.attempts := by
  unfold finishLoading
  split <;> simp


lemma addClass_tag (el : Element) (c : String) : (el.addClass c).tag = el.tag := by
  unfold Element.addClass
  split
  · rfl
  · split <;> rfl

lemma classGuard_tag (el : Element) (c : String) :
    (if el.hasClass c then el.removeClass c else el).tag = el.tag := by
  unfold Element.removeClass
  split
  · split <;> rfl
  · rfl

lemma addClass_attrs (el : Element) (c : String) : (el.addClass c).attrs = el.attrs := by
  unfold Element.addClass
  split
  · rfl
  · split <;> rfl

lemma classGuard_attrs (el : Element) (c : String) :
    (if el.hasClass c then el.removeClass c else el).attrs = el.attrs := by
  unfold Element.removeClass
  split
  · split <;> rfl
  · rfl

lemma deliverEvent_error_inert (w : World) (i : Nat) (a : Attempt)
    (h : w.attempts.get? i = some a) (he : a.hasErrorListener = false) :
    deliverEvent w i MediaEvent.error = w := by
  unfold deliverEvent
  rw [h]
  simp [he]


lemma hasClass_removeClass_self (el : Element) (c : String) (hc : c ≠ "") :
    ¬(el.removeClass c).hasClass c := by
  simp [Element.removeClass, Element.hasClass, hc, List.mem_filter]

lemma addElements_skip (w : World) (hd : Bool) (vis : ElemId → Bool) (e : ElemId)
    (hcond : ¬(e ∉ w.elementsToObserve ∧ e ∉ w.observedByDetector ∧
      ¬(w.dom e).hasClass w.settings.class_loaded ∧ e ∉ w.errorElements)) :
    addElements w hd vis [some e] = w := by
  have hfold : List.foldl admitCandidate (w, 0) [some e] = (w, 0) := by
    simp only [List.foldl, admitCandidate]
    rw [if_neg hcond]
  simp only [addElements]
  rw [hfold]
  simp

lemma addElements_none (w : World) (hd : Bool) (vis : ElemId → Bool) :
    addElements w hd vis [none] = w := by
  simp [addElements, admitCandidate]

lemma observeQueuedElement_noskip (vis : ElemId → Bool) (w : World) (e : ElemId)
    (hsk : w.settings.skip_invisible = false) :
    (observeQueuedElement vis w e).elementsToObserve = w.elementsToObserve ∧
    (observeQueuedElement vis w e).dom = w.dom ∧
    (observeQueuedElement vis w e).settings = w.settings := by
  simp only [observeQueuedElement]
  split
  · exact ⟨rfl, rfl, rfl⟩
  · rw [hsk]
    rw [if_neg (by simp)]
    unfold observerObserve
    cases w.observer <;> simp

lemma observeLoop_noskip (vis : ElemId → Bool) (l : List ElemId) (s : World)
    (hsk : s.settings.skip_invisible = false) :
    (l.foldl (observeQueuedElement vis) s).elementsToObserve = s.elementsToObserve ∧
    (l.foldl (observeQueuedElement vis) s).dom = s.dom ∧
    (l.foldl (observeQueuedElement vis) s).settings = s.settings :=
  foldl_inv (fun t => t.elementsToObserve = s.elementsToObserve ∧
      t.dom = s.dom ∧ t.settings = s.settings) (observeQueuedElement vis) l s
    (fun t a _ ht => by
      obtain ⟨h1, h2, h3⟩ := ht
      obtain ⟨g1, g2, g3⟩ := observeQueuedElement_noskip vis t a (by rw [h3]; exact hsk)
      exact ⟨g1.trans h1, g2.trans h2, g3.trans h3⟩)
    ⟨rfl, rfl, rfl⟩

lemma observeLoop_mem (vis : ElemId → Bool) (l : List ElemId) (s : World)
    (x : ElemId) (hx : x ∈ s.elementsToObserve)
    (hsk : s.settings.skip_invisible = false) :
    x ∈ (l.foldl (observeQueuedElement vis) s).elementsToObserve := by
  rw [(observeLoop_noskip vis l s hsk).1]
  exact hx

lemma observeLoop_dom_apply (vis : ElemId → Bool) (l : List ElemId) (s : World)
    (P : Element → Prop) (x : ElemId) (h : P (s.dom x))
    (hsk : s.settings.skip_invisible = false) :
    P ((l.foldl (observeQueuedElement vis) s).dom x) := by
  rw [(observeLoop_noskip vis l s hsk).2.1]
  exact h

lemma init_noskip (w : World) (vis : ElemId → Bool)
    (hsk : w.settings.skip_invisible = false) :
    (init w true vis).elementsToObserve = w.elementsToObserve ∧
    (init w true vis).dom = w.dom := by
  simp only [init]
  rcases hw : w.observer with _ | l <;> simp only [hw, Bool.not_true, Bool.false_eq_true,
    if_false]
  · have h := observeLoop_noskip vis
      ({ w with observer := some [] } : World).elementsToObserve
      { w with observer := some [] } hsk
    exact ⟨h.1, h.2.1⟩
  · have h := observeLoop_noskip vis
      ({ w with observer := some [], observedByDetector := [] } : World).elementsToObserve
      { w with observer := some [], observedByDetector := [] } hsk
    exact ⟨h.1, h.2.1⟩

lemma init_mem (w : World) (vis : ElemId → Bool) (x : ElemId)
    (hx : x ∈ w.elementsToObserve)
    (hsk : w.settings.skip_invisible = false) :
    x ∈ (init w true vis).elementsToObserve := by
  rw [(init_noskip w vis hsk).1]
  exact hx

lemma init_dom_apply (w : World) (vis : ElemId → Bool) (P : Element → Prop)
    (x : ElemId) (h : P (w.dom x))
    (hsk : w.settings.skip_invisible = false) : P ((init w true vis).dom x) := by
  rw [(init_noskip w vis hsk).2]
  exact h

lemma addElements_adds (w : World) (hd : Bool) (vis : ElemId → Bool) (e : ElemId)
    (hsk : w.settings.skip_invisible = false)
    (hcond : e ∉ w.elementsToObserve ∧ e ∉ w.observedByDetector ∧
      ¬(w.dom e).hasClass w.settings.class_loaded ∧ e ∉ w.errorElements) :
    e ∈ (addElements w hd vis [some e]).elementsToObserve := by
  simp only [addElements, List.foldl, admitCandidate]
  rw [if_pos hcond]
  by_cases hec : (w.dom e).hasClass w.settings.class_error <;>
    [rw [if_pos hec]; rw [if_neg hec]] <;>
  · dsimp only
    rw [if_pos (by omega : 0 + 1 > 0)]
    rcases hobs : w.observer with _ | lo <;> simp only [hobs]
    · split
      case _ hc =>
        obtain ⟨hhd, _⟩ := hc
        rw [hhd]
        apply init_mem
        · exact (mem_setAdd _ _ _).mpr (Or.inr rfl)
        · exact hsk
      case _ =>
        exact (mem_setAdd _ _ _).mpr (Or.inr rfl)
    · apply observeLoop_mem
      · exact (mem_setAdd _ _ _).mpr (Or.inr rfl)
      · exact hsk


lemma addElements_strips_error (w : World) (hd : Bool) (vis : ElemId → Bool)
    (e : ElemId) (hsk : w.settings.skip_invisible = false)
    (hce : w.settings.class_error ≠ "")
    (hcond : e ∉ w.elementsToObserve ∧ e ∉ w.observedByDetector ∧
      ¬(w.dom e).hasClass w.settings.class_loaded ∧ e ∉ w.errorElements) :
    ¬((addElements w hd vis [some e]).dom e).hasClass w.settings.class_error := by
  simp only [addElements, List.foldl, admitCandidate]
  rw [if_pos hcond]
  by_cases hec : (w.dom e).hasClass w.settings.class_error <;>
    [rw [if_pos hec]; rw [if_neg hec]] <;>
  · dsimp only
    rw [if_pos (by omega : 0 + 1 > 0)]
    rcases hobs : w.observer with _ | lo <;> simp only [hobs]
    · split
      case _ hc =>
        obtain ⟨hhd, _⟩ := hc
        rw [hhd]
        exact init_dom_apply _ vis
          (fun el => ¬el.hasClass w.settings.class_error) e
          (by first
            | (simp only [updateDom, if_pos rfl]
               exact hasClass_removeClass_self _ _ hce)
            | exact hec) hsk
      case _ =>
        first
          | (simp only [updateDom, if_pos rfl]
             exact hasClass_removeClass_self _ _ hce)
          | exact hec
    · exact observeLoop_dom_apply vis _ _
        (fun el => ¬el.hasClass w.settings.class_error) e
        (by first
          | (simp only [updateDom, if_pos rfl]
             exact hasClass_removeClass_self _ _ hce)
          | exact hec) hsk





lemma loadAllNowStep_pending (w : World) (a : ElemId) :
    (loadAllNowStep w a).elementsToObserve =
      if a ∈ w.elementsToObserve then setDelete w.elementsToObserve a
      else w.elementsToObserve := by
  simp only [loadAllNowStep]
  split
  case _ hmem =>
    split <;> simp [revealElement_elems, observerUnobserve_elems]
  case _ hmem =>
    rfl

lemma loadAllNow_go_pending_nil :
    ∀ (l : List ElemId) (s : World), (∀ x, x ∈ s.elementsToObserve → x ∈ l) →
      (List.foldl loadAllNowStep s l).elementsToObserve = []
  | [], s, h => List.eq_nil_iff_forall_not_mem.mpr
      (fun x hx => List.not_mem_nil x (h x hx))
  | a :: t, s, h => by
      rw [List.foldl_cons]
      apply loadAllNow_go_pending_nil t
      intro x hx
      rw [loadAllNowStep_pending] at hx
      split at hx
      case _ hmem =>
        rw [mem_setDelete] at hx
        rcases List.mem_cons.mp (h x hx.1) with h' | h'
        · exact absurd h' hx.2
        · exact h'
      case _ hmem =>
        rcases List.mem_cons.mp (h x hx) with h' | h'
        · exact absurd (h' ▸ hx) hmem
        · exact h'

lemma loadAllNow_pending_nil (w : World) : (loadAllNow w).elementsToObserve = [] :=
  loadAllNow_go_pending_nil w.elementsToObserve w (fun _ hx => hx)

lemma loadAllNowStep_observer_none (w : World) (a : ElemId)
    (h : w.observer = none) : (loadAllNowStep w a).observer = none := by
  simp only [loadAllNowStep]
  split
  case _ hmem =>
    rw [if_neg (fun hc => by rw [h] at hc; simp at hc)]
    rw [revealElement_observer]
    exact h
  case _ => exact h

lemma loadAllNowStep_obsdet_nil (w : World) (a : ElemId)
    (h : w.observedByDetector = []) : (loadAllNowStep w a).observedByDetector = [] := by
  simp only [loadAllNowStep]
  split
  case _ hmem =>
    split
    case _ hc =>
      rw [revealElement_observed]
      simp only [observerUnobserve_observed, h]
      rfl
    case _ =>
      rw [revealElement_observed]
      exact h
  case _ => exact h




lemma observerUnobserve_dom (w : World) (e : ElemId) :
    (observerUnobserve w e).dom = w.dom := by
  unfold observerUnobserve
  cases hw : w.observer <;> simp [hw]

lemma observerUnobserve_online (w : World) (e : ElemId) :
    (observerUnobserve w e).onlineListener = w.onlineListener := by
  unfold observerUnobserve
  cases hw : w.observer <;> simp [hw]

lemma observerUnobserve_settings (w : World) (e : ElemId) :
    (observerUnobserve w e).settings = w.settings := by
  unfold observerUnobserve
  cases hw : w.observer <;> simp [hw]

lemma observerUnobserve_error (w : World) (e : ElemId) :
    (observerUnobserve w e).errorElements = w.errorElements := by
  unfold observerUnobserve
  cases hw : w.observer <;> simp [hw]

lemma observerUnobserve_rdata (w : World) (e : ElemId) :
    (observerUnobserve w e).retryData = w.retryData := by
  unfold observerUnobserve
  cases hw : w.observer <;> simp [hw]

lemma addElements_fresh_observed (W : World) (hd : Bool) (vis : ElemId → Bool)
    (f : ElemId) (obs2 : List ElemId) (hWobs : W.observer = some obs2)
    (hpend : W.elementsToObserve = [])
    (hsk : W.settings.skip_invisible = false)
    (hf2 : f ∉ W.observedByDetector)
    (hf3 : ¬(W.dom f).hasClass W.settings.class_loaded)
    (hf4 : f ∉ W.errorElements) :
    f ∈ (addElements W hd vis [some f]).observedByDetector ∧
      ∃ l2, (addElements W hd vis [some f]).observer = some l2 ∧ f ∈ l2 := by
  have hcond : f ∉ W.elementsToObserve ∧ f ∉ W.observedByDetector ∧
      ¬(W.dom f).hasClass W.settings.class_loaded ∧ f ∉ W.errorElements :=
    ⟨by rw [hpend]; exact List.not_mem_nil f, hf2, hf3, hf4⟩
  have hl : setAdd W.elementsToObserve f = [f] := by
    rw [hpend]
    rfl
  simp only [addElements, List.foldl, admitCandidate]
  rw [if_pos hcond]
  by_cases hfec : (W.dom f).hasClass W.settings.class_error <;>
    [rw [if_pos hfec]; rw [if_neg hfec]] <;>
  · dsimp only
    rw [if_pos (by omega : 0 + 1 > 0)]
    rw [hWobs]
    dsimp only
    rw [hl]
    simp only [List.foldl]
    simp only [observeQueuedElement]
    rw [if_neg hf2]
    rw [if_neg (by simp [hsk] : ¬(W.settings.skip_invisible && vis f) = true)]
    simp only [observerObserve]
    exact ⟨(mem_setAdd _ _ _).mpr (Or.inr rfl),
      ⟨setAdd obs2 f, rfl, (mem_setAdd _ _ _).mpr (Or.inr rfl)⟩⟩



/-! ### The claims -/

/-- C1 (code bug): the claim says `retryFailedLoads` resubmits every
qualifying errored element through `addElements` so that it re-enters the
pending/observed flow.  The code contradicts its own comments: the
elements are left in `_errorElements` when `addElements` runs, and
`addElements` skips exactly those (`isKnownError`), so the element is
re-admitted nowhere — while its attempt counter is still incremented and
its backoff pushed out.  At the failing input (one errored, fully
eligible element, live observer, `now = 0`) the element is in neither
queue afterwards, no reveal ran (`attempts = []`, `log = []`), yet its
retry budget was burned (`count = 1`, `nextAttemptAt = 1000`). -/
theorem c1_retry_never_readmits :
    0 ∉ (retryFailedLoads erroredWorld true (fun _ => false) 0).elementsToObserve ∧
    0 ∉ (retryFailedLoads erroredWorld true (fun _ => false) 0).observedByDetector ∧
    0 ∈ (retryFailedLoads erroredWorld true (fun _ => false) 0).errorElements ∧
    rdGet (retryFailedLoads erroredWorld true (fun _ => false) 0).retryData 0 =
      some { count := 1, nextAttemptAt := 1000 } ∧
    (retryFailedLoads erroredWorld true (fun _ => false) 0).attempts = [] ∧
    (retryFailedLoads erroredWorld true (fun _ => false) 0).log = [] := by
  decide

/-- C2 (counterexample): the claim says no element is ever simultaneously
in the pending queue (`_elementsToObserve`) and in the observed set
(`_observedByIO`).  False: `init` (lines 450–461) registers a queued
element with the detector and adds it to `_observedByIO` without removing
it from `_elementsToObserve`, so after `init` on a world with one pending
element, element 0 is in both sets. -/
theorem c2_pending_observed_counterexample :
    0 ∈ (init onePendingWorld true (fun _ => false)).elementsToObserve ∧
    0 ∈ (init onePendingWorld true (fun _ => false)).observedByDetector := by
  decide

/-- C2 (amended): membership in the source's three tracking sets is not
mutually exclusive — an observed element stays in the pending queue until
revealed.  What the code does maintain is the invariant
`_observedByIO ⊆ _elementsToObserve` (`SubInv`): every public operation
of the loader preserves it (given the registry invariant `RegistryInv`,
which real instances satisfy: sets are duplicate-free and a null observer
implies an empty observed set). -/
theorem c2_observed_subset_pending (w : World) (hasDetector trackVis : Bool)
    (vis : ElemId → Bool) (cands : List Candidate) (entries : List ObserverEntry)
    (now : Nat) (hinv : RegistryInv w) :
    SubInv (init w hasDetector vis) ∧
    SubInv (addElements w hasDetector vis cands) ∧
    SubInv (loadAllNow w) ∧
    SubInv (onIntersection trackVis vis w entries) ∧
    SubInv (retryFailedLoads w hasDetector vis now) ∧
    SubInv (update w hasDetector vis cands) ∧
    SubInv (destroy w) :=
  ⟨(init_inv w hasDetector vis hinv).1,
   (addElements_inv w hasDetector vis cands hinv).1,
   (loadAllNow_inv w hinv).1,
   (onIntersection_inv trackVis vis w entries hinv).1,
   (retryFailedLoads_inv w hasDetector vis now hinv).1,
   (update_inv w hasDetector vis cands).1,
   (destroy_inv w).1⟩

/-- Witness for C2 at a concrete one-element world. -/
theorem c2_observed_subset_pending_witness :
    RegistryInv onePendingWorld ∧
      SubInv (init onePendingWorld true (fun _ => false)) :=
  have hinv : RegistryInv onePendingWorld :=
    ⟨fun x hx => by simp [onePendingWorld, baseWorld] at hx,
     fun _ => rfl, by simp [onePendingWorld, baseWorld]⟩
  ⟨hinv, (c2_observed_subset_pending onePendingWorld true false (fun _ => false)
      [] [] 0 hinv).1⟩

/-- C3: per load attempt the terminal callbacks fire exactly once,
enforced by the per-attempt `hasFired` latch.  For any attempt with both
listeners attached and the latch clear (what `_loadImage`/`_loadVideo`
create), any sequence of media events appends to the log a suffix in
which `finish` fires exactly once (zero times only when no event ever
arrives), exactly one of `load`/`error` fires, and never both. -/
theorem c3_terminal_callbacks_once (w : World) (i : Nat) (e : ElemId) (evs : List MediaEvent)
    (h : w.attempts.get? i = some
      { target := e, hasLoadListener := true, hasErrorListener := true, fired := false }) :
    ∃ suffix, (deliverEvents w i evs).log = w.log ++ suffix ∧
      countFinishCb suffix e = (if evs = [] then 0 else 1) ∧
      countLoadCb suffix e + countErrorCb suffix e = countFinishCb suffix e ∧
      ¬(1 ≤ countLoadCb suffix e ∧ 1 ≤ countErrorCb suffix e) := by
  have hlen : i < w.attempts.length := by
    rcases List.get?_eq_some.mp h with ⟨hl, _⟩
    exact hl
  cases evs with
  | nil =>
      exact ⟨[], by simp [deliverEvents], by simp [countFinishCb],
        by simp [countLoadCb, countErrorCb, countFinishCb],
        by simp [countLoadCb, countErrorCb]⟩
  | cons ev rest =>
      cases ev with
      | load =>
          have h1 : deliverEvent w i MediaEvent.load =
              { finishLoading w e true none with
                attempts := w.attempts.set i
                  { target := e, hasLoadListener := false, hasErrorListener := false,
                    fired := true } } := by
            unfold deliverEvent
            rw [h]
            rfl
          have h2 : deliverEvents w i (MediaEvent.load :: rest) =
              { finishLoading w e true none with
                attempts := w.attempts.set i
                  { target := e, hasLoadListener := false, hasErrorListener := false,
                    fired := true } } := by
            show deliverEvents (deliverEvent w i MediaEvent.load) i rest = _
            rw [h1]
            exact deliverEvents_inert _ i rest _
              (by simpa using List.getElem?_set_eq_of_lt _ hlen) rfl rfl
          rw [h2]
          refine ⟨[Cb.load e, Cb.finish e], ?_, ?_, ?_, ?_⟩
          · simp [finishLoading_log]
          · simp [countFinishCb, List.countP_cons]
          · simp [countLoadCb, countErrorCb, countFinishCb, List.countP_cons]
          · simp [countLoadCb, countErrorCb, List.countP_cons]
      | error =>
          have h1 : deliverEvent w i MediaEvent.error =
              { finishLoading w e false (some "error") with
                attempts := w.attempts.set i
                  { target := e, hasLoadListener := false, hasErrorListener := false,
                    fired := true } } := by
            unfold deliverEvent
            rw [h]
            rfl
          have h2 : deliverEvents w i (MediaEvent.error :: rest) =
              { finishLoading w e false (some "error") with
                attempts := w.attempts.set i
                  { target := e, hasLoadListener := false, hasErrorListener := false,
                    fired := true } } := by
            show deliverEvents (deliverEvent w i MediaEvent.error) i rest = _
            rw [h1]
            exact deliverEvents_inert _ i rest _
              (by simpa using List.getElem?_set_eq_of_lt _ hlen) rfl rfl
          rw [h2]
          refine ⟨[Cb.error e "error", Cb.finish e], ?_, ?_, ?_, ?_⟩
          · simp [finishLoading_log]
          · simp [countFinishCb, List.countP_cons]
          · simp [countLoadCb, countErrorCb, countFinishCb, List.countP_cons]
          · simp [countLoadCb, countErrorCb, List.countP_cons]

/-- Witness for C3: a freshly revealed `img` with `data-src` processed
with an `error` followed by a late `load` event fires its callbacks
exactly once. -/
theorem c3_terminal_callbacks_once_witness :
    ∃ suffix,
      (deliverEvents (revealElement (baseWorld (fun _ =>
          mkElem Tag.img [("data-src", "a.jpg")])) 0) 0
        [MediaEvent.error, MediaEvent.load]).log =
      (revealElement (baseWorld (fun _ =>
          mkElem Tag.img [("data-src", "a.jpg")])) 0).log ++ suffix ∧
      countFinishCb suffix 0 =
        (if ([MediaEvent.error, MediaEvent.load] : List MediaEvent) = [] then 0 else 1) ∧
      countLoadCb suffix 0 + countErrorCb suffix 0 = countFinishCb suffix 0 ∧
      ¬(1 ≤ countLoadCb suffix 0 ∧ 1 ≤ countErrorCb suffix 0) :=
  c3_terminal_callbacks_once _ 0 0 [MediaEvent.error, MediaEvent.load] (by decide)

/-- C4: the retry scheduler's backoff arithmetic.  For an element whose
retry record shows `k` dispatched-and-failed retries — the `k`-th was
dispatched at time `t0`, recording `nextAttemptAt = t0 + B * 2 ^ (k-1)` —
the element qualifies again only once the wait `B * 2 ^ (k-1)` has fully
elapsed, and on qualifying the scheduler increments the count to `k + 1`
and records `nextAttemptAt = now + B * 2 ^ k` (that is,
`B * 2 ^ (newCount - 1)` seeded by the new count); once the count has
reached `retry_max_attempts` the element is never collected again. -/
theorem c4_retry_backoff (s : Settings) (now t0 k : Nat)
    (acc : List ElemId × List (ElemId × RetryInfo)) (e : ElemId)
    (hinfo : rdGet acc.2 e =
      some { count := k, nextAttemptAt := t0 + s.retry_backoff_base_ms * 2 ^ (k - 1) }) :
    (k < s.retry_max_attempts → t0 + s.retry_backoff_base_ms * 2 ^ (k - 1) ≤ now →
      retryEval s now acc e =
        (acc.1 ++ [e], rdSet acc.2 e
          { count := k + 1, nextAttemptAt := now + s.retry_backoff_base_ms * 2 ^ k })) ∧
    (s.retry_max_attempts ≤ k → retryEval s now acc e = acc) ∧
    (now < t0 + s.retry_backoff_base_ms * 2 ^ (k - 1) → retryEval s now acc e = acc) := by
  refine ⟨?_, ?_, ?_⟩
  · intro hmax hwait
    unfold retryEval
    rw [hinfo]
    simp only [Option.getD_some]
    rw [if_neg (by omega), if_neg (by omega)]
    simp
  · intro hmax
    unfold retryEval
    rw [hinfo]
    simp only [Option.getD_some]
    rw [if_pos (by omega)]
  · intro hwait
    unfold retryEval
    rw [hinfo]
    simp only [Option.getD_some]
    by_cases hmax : k ≥ s.retry_max_attempts
    · rw [if_pos hmax]
    · rw [if_neg hmax, if_pos (by omega)]

/-- Witness for C4: with the default settings (base 1000 ms, max 5), an
element that failed once (count 1, eligible from t = 1000) qualifies at
`now = 5000` and is rescheduled with count 2 and `nextAttemptAt = 7000`. -/
theorem c4_retry_backoff_witness :
    retryEval defaults 5000 ([], [(7, { count := 1, nextAttemptAt := 1000 })]) 7 =
      ([7], rdSet [(7, { count := 1, nextAttemptAt := 1000 })] 7
        { count := 2, nextAttemptAt := 5000 + defaults.retry_backoff_base_ms * 2 ^ 1 }) :=
  (c4_retry_backoff defaults 5000 0 1 ([], [(7, { count := 1, nextAttemptAt := 1000 })]) 7
    (by decide)).1 (by decide) (by decide)

/-- C5 (counterexample): the claim says calling `addElements` twice with
the same element yields exactly one record and one eventual load attempt.
False: with `skip_invisible = true` and the element on-screen, the first
call reveals the element immediately (dropping it from every tracking
set while its attempt is still in flight), so the second call re-admits
it and starts a second load attempt — two attempt records after two
calls. -/
theorem c5_double_add_counterexample :
    (addElements c5World true (fun _ => true) [some 0]).attempts.length = 1 ∧
    (addElements (addElements c5World true (fun _ => true) [some 0]) true
      (fun _ => true) [some 0]).attempts.length = 2 := by
  decide

/-- C5 (amended): `addElements` filters exactly as claimed — it skips
non-elements, elements already queued or observed, elements carrying the
loaded class, and elements tracked in this instance's Errored set; an
element carrying only a stale error class is stripped of it and admitted
to the pending queue.  The idempotence consequence holds provided the
element is not torn out of the queue by the `skip_invisible` immediate
reveal between the calls — in particular whenever `skip_invisible` is
false (the default): then a second identical call leaves the state
unchanged. -/
theorem c5_add_filtering_idempotent :
    (∀ (w : World) (hd : Bool) (vis : ElemId → Bool),
      addElements w hd vis [none] = w) ∧
    (∀ (w : World) (hd : Bool) (vis : ElemId → Bool) (e : ElemId),
      e ∈ w.elementsToObserve → addElements w hd vis [some e] = w) ∧
    (∀ (w : World) (hd : Bool) (vis : ElemId → Bool) (e : ElemId),
      e ∈ w.observedByDetector → addElements w hd vis [some e] = w) ∧
    (∀ (w : World) (hd : Bool) (vis : ElemId → Bool) (e : ElemId),
      (w.dom e).hasClass w.settings.class_loaded → addElements w hd vis [some e] = w) ∧
    (∀ (w : World) (hd : Bool) (vis : ElemId → Bool) (e : ElemId),
      e ∈ w.errorElements → addElements w hd vis [some e] = w) ∧
    (∀ (w : World) (hd : Bool) (vis : ElemId → Bool) (e : ElemId),
      w.settings.skip_invisible = false → w.settings.class_error ≠ "" →
      e ∉ w.elementsToObserve → e ∉ w.observedByDetector →
      ¬(w.dom e).hasClass w.settings.class_loaded → e ∉ w.errorElements →
      e ∈ (addElements w hd vis [some e]).elementsToObserve ∧
        ¬((addElements w hd vis [some e]).dom e).hasClass w.settings.class_error) ∧
    (∀ (w : World) (hd : Bool) (vis : ElemId → Bool) (e : ElemId),
      w.settings.skip_invisible = false →
      addElements (addElements w hd vis [some e]) hd vis [some e] =
        addElements w hd vis [some e]) := by
  refine ⟨?_, ?_, ?_, ?_, ?_, ?_, ?_⟩
  · exact fun w hd vis => addElements_none w hd vis
  · exact fun w hd vis e he => addElements_skip w hd vis e (fun hc => hc.1 he)
  · exact fun w hd vis e he => addElements_skip w hd vis e (fun hc => hc.2.1 he)
  · exact fun w hd vis e he => addElements_skip w hd vis e (fun hc => hc.2.2.1 he)
  · exact fun w hd vis e he => addElements_skip w hd vis e (fun hc => hc.2.2.2 he)
  · intro w hd vis e hsk hce h1 h2 h3 h4
    exact ⟨addElements_adds w hd vis e hsk ⟨h1, h2, h3, h4⟩,
      addElements_strips_error w hd vis e hsk hce ⟨h1, h2, h3, h4⟩⟩
  · intro w hd vis e hsk
    by_cases hcond : e ∉ w.elementsToObserve ∧ e ∉ w.observedByDetector ∧
        ¬(w.dom e).hasClass w.settings.class_loaded ∧ e ∉ w.errorElements
    · exact addElements_skip _ hd vis e
        (fun hc => hc.1 (addElements_adds w hd vis e hsk hcond))
    · rw [addElements_skip w hd vis e hcond, addElements_skip w hd vis e hcond]

/-- Witness for C5: re-adding an already pending element is a no-op. -/
theorem c5_add_filtering_idempotent_witness :
    0 ∈ onePendingWorld.elementsToObserve ∧
      addElements onePendingWorld true (fun _ => false) [some 0] = onePendingWorld :=
  ⟨by decide,
    c5_add_filtering_idempotent.2.1 onePendingWorld true (fun _ => false) 0 (by decide)⟩

/-- C6: when the visibility capability is unavailable at initialisation,
no detector is created (`observer` stays null on a fresh instance) and
`init` force-loads everything: afterwards both the pending queue and the
observed set are empty.  On the concrete mixed world (an `img` with
source, an `img` without, an `iframe` with source, a background-image
`div`) every admitted element is revealed without any visibility event:
the source-less `img` is immediately terminal Errored, the background
`div` immediately terminal Loaded, and the two in-flight attempts reach
terminal Loaded/Errored as soon as their own media event arrives. -/
theorem c6_fallback_completeness (w : World) (vis : ElemId → Bool)
    (hobs0 : w.observer = none) (hobsd : w.observedByDetector = []) :
    ((init w false vis).observer = none ∧
     (init w false vis).elementsToObserve = [] ∧
     (init w false vis).observedByDetector = []) ∧
    ((init fallbackWorld false (fun _ => false)).observer = none ∧
     (init fallbackWorld false (fun _ => false)).elementsToObserve = [] ∧
     (init fallbackWorld false (fun _ => false)).observedByDetector = [] ∧
     ((init fallbackWorld false (fun _ => false)).dom 1).hasClass defaults.class_error ∧
     1 ∈ (init fallbackWorld false (fun _ => false)).errorElements ∧
     ((init fallbackWorld false (fun _ => false)).dom 3).hasClass defaults.class_loaded ∧
     ((deliverEvent (init fallbackWorld false (fun _ => false)) 0
        MediaEvent.load).dom 0).hasClass defaults.class_loaded ∧
     ((deliverEvent (init fallbackWorld false (fun _ => false)) 0
        MediaEvent.error).dom 0).hasClass defaults.class_error ∧
     0 ∈ (deliverEvent (init fallbackWorld false (fun _ => false)) 0
        MediaEvent.error).errorElements ∧
     ((deliverEvent (init fallbackWorld false (fun _ => false)) 2
        MediaEvent.load).dom 2).hasClass defaults.class_loaded) := by
  constructor
  · have hred : init w false vis = loadAllNow w := by
      simp only [init]
      rw [hobs0]
      rfl
    rw [hred]
    refine ⟨?_, loadAllNow_pending_nil w, ?_⟩
    · exact foldl_inv (fun s => s.observer = none) loadAllNowStep _ w
        (fun s a _ hs => loadAllNowStep_observer_none s a hs) hobs0
    · exact foldl_inv (fun s => s.observedByDetector = []) loadAllNowStep _ w
        (fun s a _ hs => loadAllNowStep_obsdet_nil s a hs) hobsd
  · decide

/-- Witness for C6 at the concrete fallback world. -/
theorem c6_fallback_completeness_witness :
    (init fallbackWorld false (fun _ => false)).observer = none ∧
    (init fallbackWorld false (fun _ => false)).elementsToObserve = [] ∧
    (init fallbackWorld false (fun _ => false)).observedByDetector = [] :=
  (c6_fallback_completeness fallbackWorld (fun _ => false) rfl rfl).1

/-- C7: `applyImageAttributes` applies the data attributes in the order
`sizes`, then `srcset`, then `src` (the assignment trace is a sublist of
that three-element order, and an assignment appears exactly when its data
attribute is present), removes each source data attribute once consumed,
and synthesises the immediate no-source-data error exactly when neither
`src` nor `srcset` data was present.  Revealing a concrete `img` with no
source data yields the error callback with the no-source-data detail, the
error class, and an already-fired attempt — no network event involved. -/
theorem c7_img_attribute_order (s : Settings) (el : Element) (src srcset sizes : Option String) :
    List.Sublist (applyImageAttributes s el src srcset sizes).2.1
      [PropAssign.sizes, PropAssign.srcset, PropAssign.src] ∧
    (PropAssign.sizes ∈ (applyImageAttributes s el src srcset sizes).2.1 ↔ sizes.isSome = true) ∧
    (PropAssign.srcset ∈ (applyImageAttributes s el src srcset sizes).2.1 ↔ srcset.isSome = true) ∧
    (PropAssign.src ∈ (applyImageAttributes s el src srcset sizes).2.1 ↔ src.isSome = true) ∧
    (sizes.isSome = true →
      (applyImageAttributes s el src srcset sizes).1.getAttribute s.sizes = none) ∧
    (srcset.isSome = true →
      (applyImageAttributes s el src srcset sizes).1.getAttribute s.srcset = none) ∧
    (src.isSome = true →
      (applyImageAttributes s el src srcset sizes).1.getAttribute s.src = none) ∧
    ((applyImageAttributes s el src srcset sizes).2.2.isSome = true ↔
      (src = none ∧ srcset = none)) ∧
    ((revealElement (baseWorld (fun _ => mkElem Tag.img [])) 0).log =
        [Cb.enter 0, Cb.error 0 "Image has no source data (data-src or data-srcset)",
          Cb.finish 0] ∧
      ((revealElement (baseWorld (fun _ => mkElem Tag.img [])) 0).dom 0).hasClass
        defaults.class_error ∧
      (revealElement (baseWorld (fun _ => mkElem Tag.img [])) 0).attempts =
        [{ target := 0, hasLoadListener := false, hasErrorListener := false,
           fired := true }]) := by
  refine ⟨?_, ?_, ?_, ?_, ?_, ?_, ?_, ?_, ?_⟩
  · rcases src with _ | sv <;> rcases srcset with _ | ssv <;> rcases sizes with _ | szv <;>
      simp [applyImageAttributes]
  · rcases src with _ | sv <;> rcases srcset with _ | ssv <;> rcases sizes with _ | szv <;>
      simp [applyImageAttributes]
  · rcases src with _ | sv <;> rcases srcset with _ | ssv <;> rcases sizes with _ | szv <;>
      simp [applyImageAttributes]
  · rcases src with _ | sv <;> rcases srcset with _ | ssv <;> rcases sizes with _ | szv <;>
      simp [applyImageAttributes]
  · intro hs
    rcases src with _ | sv <;> rcases srcset with _ | ssv <;> rcases sizes with _ | szv <;>
      simp [applyImageAttributes, getAttr_removeAttr_self, getAttr_none_removeAttr,
        getAttr_set_propSizes, getAttr_set_propSrcset, getAttr_set_propSrc] <;>
        simp at hs
  · intro hs
    rcases src with _ | sv <;> rcases srcset with _ | ssv <;> rcases sizes with _ | szv <;>
      simp [applyImageAttributes, getAttr_removeAttr_self, getAttr_none_removeAttr,
        getAttr_set_propSizes, getAttr_set_propSrcset, getAttr_set_propSrc] <;>
        simp at hs
  · intro hs
    rcases src with _ | sv <;> rcases srcset with _ | ssv <;> rcases sizes with _ | szv <;>
      simp [applyImageAttributes, getAttr_removeAttr_self, getAttr_none_removeAttr,
        getAttr_set_propSizes, getAttr_set_propSrcset, getAttr_set_propSrc] <;>
        simp at hs
  · rcases src with _ | sv <;> rcases srcset with _ | ssv <;>
      simp [applyImageAttributes]
  · refine ⟨by decide, by decide, by decide⟩

/-- Witness for C7: with `data-sizes` and `data-srcset` present and no
`data-src`, the consumed `data-sizes` attribute is gone afterwards. -/
theorem c7_img_attribute_order_witness :
    (applyImageAttributes defaults
      (mkElem Tag.img [("data-sizes", "s"), ("data-srcset", "ss")])
      none (some "ss") (some "s")).1.getAttribute defaults.sizes = none :=
  (c7_img_attribute_order defaults
    (mkElem Tag.img [("data-sizes", "s"), ("data-srcset", "ss")])
    none (some "ss") (some "s")).2.2.2.2.1 rfl

/-- C8: `_finishLoading` finalisation always strips all five recognised
source data attributes (`src`, `srcset`, `sizes`, `poster`, `data-media`)
from the element, for success and failure alike. -/
theorem c8_attribute_cleanup (w : World) (e : ElemId) (success : Bool)
    (m : Option String) :
    ((finishLoading w e success m).dom e).getAttribute w.settings.src = none ∧
    ((finishLoading w e success m).dom e).getAttribute w.settings.srcset = none ∧
    ((finishLoading w e success m).dom e).getAttribute w.settings.sizes = none ∧
    ((finishLoading w e success m).dom e).getAttribute w.settings.poster = none ∧
    ((finishLoading w e success m).dom e).getAttribute "data-media" = none := by
  unfold finishLoading
  split <;>
    refine ⟨?_, ?_, ?_, ?_, ?_⟩ <;>
      simp [updateDom] <;>
        repeat
          first
            | exact getAttr_removeAttr_self _ _
            | apply getAttr_none_removeAttr

/-- C9: `_loadIframe` attaches only a `load` listener and no `error`
listener, so an iframe attempt can only ever finish successfully: the
error callback is never invoked for it, a sequence of events containing no
`load` leaves the world (and hence the iframe's Loading state) completely
unchanged, and `finish`/`load` fire exactly once as soon as a `load` event
arrives. -/
theorem c9_iframe_success_only (w : World) (i : Nat) (e : ElemId)
    (evs : List MediaEvent)
    (h : w.attempts.get? i = some
      { target := e, hasLoadListener := true, hasErrorListener := false,
        fired := false }) :
    (∀ (w' : World) (e' : ElemId) (v : String), (w'.dom e').tag = Tag.iframe →
      (w'.dom e').getAttribute w'.settings.src = some v →
      (revealElement w' e').attempts = w'.attempts ++
        [{ target := e', hasLoadListener := true, hasErrorListener := false,
           fired := false }]) ∧
    (MediaEvent.load ∉ evs → deliverEvents w i evs = w) ∧
    (∃ suffix, (deliverEvents w i evs).log = w.log ++ suffix ∧
      countErrorCb suffix e = 0 ∧
      countFinishCb suffix e = (if MediaEvent.load ∈ evs then 1 else 0) ∧
      countLoadCb suffix e = countFinishCb suffix e) := by
  have hlen : i < w.attempts.length := by
    rcases List.get?_eq_some.mp h with ⟨hl, _⟩
    exact hl
  refine ⟨?_, ?_, ?_⟩
  · intro w' e' v htag hsrc
    simp only [revealElement]
    have htag2 : ((updateDom (updateDom w'.dom e' (fun el =>
        if el.hasClass w'.settings.class_error then el.removeClass w'.settings.class_error
        else el)) e' (fun el => el.addClass w'.settings.class_loading)) e').tag =
        Tag.iframe := by
      simp [updateDom, addClass_tag, classGuard_tag, htag]
    split <;> rw [htag2] at * <;> try (rename_i heq; cases heq)
    case _ heq =>
      have hsrc2 : ((updateDom (updateDom w'.dom e' (fun el =>
          if el.hasClass w'.settings.class_error then el.removeClass w'.settings.class_error
          else el)) e' (fun el => el.addClass w'.settings.class_loading)) e').getAttribute
          w'.settings.src = some v := by
        simp only [Element.getAttribute] at hsrc ⊢
        rw [show ((updateDom (updateDom w'.dom e' (fun el =>
          if el.hasClass w'.settings.class_error then el.removeClass w'.settings.class_error
          else el)) e' (fun el => el.addClass w'.settings.class_loading)) e').attrs =
            (w'.dom e').attrs by simp [updateDom, addClass_attrs, classGuard_attrs]]
        exact hsrc
      rw [hsrc2]
      rfl
  · intro hnl
    induction evs with
    | nil => rfl
    | cons ev rest ih =>
        cases ev with
        | load => exact absurd (List.mem_cons_self _ _) hnl
        | error =>
            show deliverEvents (deliverEvent w i MediaEvent.error) i rest = w
            rw [deliverEvent_error_inert w i _ h rfl]
            exact ih (fun hm => hnl (List.mem_cons_of_mem _ hm))
  · induction evs with
    | nil =>
        exact ⟨[], by simp [deliverEvents], by simp [countErrorCb],
          by simp [countFinishCb], by simp [countLoadCb, countFinishCb]⟩
    | cons ev rest ih =>
        cases ev with
        | error =>
            obtain ⟨suf, h1, h2, h3, h4⟩ := ih
            refine ⟨suf, ?_, h2, ?_, h4⟩
            · show (deliverEvents (deliverEvent w i MediaEvent.error) i rest).log = _
              rw [deliverEvent_error_inert w i _ h rfl]
              exact h1
            · simpa [List.mem_cons] using h3
        | load =>
            have h1 : deliverEvent w i MediaEvent.load =
                { finishLoading w e true none with
                  attempts := w.attempts.set i
                    { target := e, hasLoadListener := false, hasErrorListener := false,
                      fired := true } } := by
              unfold deliverEvent
              rw [h]
              rfl
            have h2 : deliverEvents w i (MediaEvent.load :: rest) =
                { finishLoading w e true none with
                  attempts := w.attempts.set i
                    { target := e, hasLoadListener := false, hasErrorListener := false,
                      fired := true } } := by
              show deliverEvents (deliverEvent w i MediaEvent.load) i rest = _
              rw [h1]
              exact deliverEvents_inert _ i rest _
                (by simpa using List.getElem?_set_eq_of_lt _ hlen) rfl rfl
            rw [h2]
            refine ⟨[Cb.load e, Cb.finish e], ?_, ?_, ?_, ?_⟩
            · simp [finishLoading_log]
            · simp [countErrorCb, List.countP_cons]
            · simp [countFinishCb, List.countP_cons]
            · simp [countLoadCb, countFinishCb, List.countP_cons]

/-- Witness for C9: a freshly revealed iframe with `data-src` shrugs off
two `error` events — the world is untouched, so it stays Loading. -/
theorem c9_iframe_success_only_witness :
    deliverEvents (revealElement (baseWorld (fun _ =>
        mkElem Tag.iframe [("data-src", "frame.html")])) 0) 0
      [MediaEvent.error, MediaEvent.error] =
    revealElement (baseWorld (fun _ =>
        mkElem Tag.iframe [("data-src", "frame.html")])) 0 :=
  (c9_iframe_success_only _ 0 0 [MediaEvent.error, MediaEvent.error]
    (by decide)).2.1 (by decide)

/-- C10: `loadAllNow` affects only the queued elements.  For any element
`x` that is neither queued nor the delegated `<img>` child of a queued
`<picture>`: the detector instance survives (still `some`, with `x`'s
registration untouched), `x`'s membership in the errored set and its
retry metadata are unchanged, and the online listener stays attached;
the queue itself is drained, and a subsequent `addElements` with a fresh
element still registers it with the same live (never `none`-d) detector
and the observed set. -/
theorem c10_loadAllNow_frame (w : World) (x : ElemId) (obs : List ElemId)
    (hobs : w.observer = some obs)
    (hx : ∀ e ∈ w.elementsToObserve, x ≠ e ∧ (w.dom e).childImg ≠ some x) :
    (∃ obs2, (loadAllNow w).observer = some obs2 ∧ (x ∈ obs2 ↔ x ∈ obs)) ∧
    (x ∈ (loadAllNow w).errorElements ↔ x ∈ w.errorElements) ∧
    rdGet (loadAllNow w).retryData x = rdGet w.retryData x ∧
    (loadAllNow w).onlineListener = w.onlineListener ∧
    (loadAllNow w).elementsToObserve = [] ∧
    (∀ (hd : Bool) (vis : ElemId → Bool) (f : ElemId),
      w.settings.skip_invisible = false →
      f ∉ (loadAllNow w).observedByDetector →
      ¬((loadAllNow w).dom f).hasClass w.settings.class_loaded →
      f ∉ (loadAllNow w).errorElements →
      f ∈ (addElements (loadAllNow w) hd vis [some f]).observedByDetector ∧
        ∃ l2, (addElements (loadAllNow w) hd vis [some f]).observer = some l2 ∧
          f ∈ l2) := by
  have hP := foldl_inv (fun s =>
      (∃ obs2, s.observer = some obs2 ∧ (x ∈ obs2 ↔ x ∈ obs)) ∧
      (x ∈ s.errorElements ↔ x ∈ w.errorElements) ∧
      rdGet s.retryData x = rdGet w.retryData x ∧
      s.onlineListener = w.onlineListener ∧
      s.settings = w.settings ∧
      (∀ y, (s.dom y).childImg = (w.dom y).childImg))
    loadAllNowStep w.elementsToObserve w
    (fun s a ha hs => by
      obtain ⟨⟨obs2, hso, hmemo⟩, herr, hrd, honl, hset, hchild⟩ := hs
      obtain ⟨hxa, hxc⟩ := hx a ha
      simp only [loadAllNowStep]
      split
      case _ hmem2 =>
        split
        case _ hc =>
          refine ⟨⟨setDelete obs2 a, ?_, ?_⟩, ?_, ?_, ?_, ?_, ?_⟩
          · rw [revealElement_observer]
            show (observerUnobserve s a).observer = _
            simp only [observerUnobserve, hso]
          · rw [mem_setDelete]
            constructor
            · exact fun h' => hmemo.mp h'.1
            · exact fun h' => ⟨hmemo.mpr h', hxa⟩
          · exact Iff.trans
              (revealElement_error_mem _ a x hxa
                (by rw [observerUnobserve_dom, hchild a]; exact hxc))
              (by rw [observerUnobserve_error]; exact herr)
          · rw [revealElement_rdGet _ a x hxa
              (by rw [observerUnobserve_dom, hchild a]; exact hxc)]
            rw [show ({ (observerUnobserve s a) with
                observedByDetector := setDelete (observerUnobserve s a).observedByDetector a,
                elementsToObserve := setDelete (observerUnobserve s a).elementsToObserve a
              } : World).retryData = s.retryData from observerUnobserve_rdata s a]
            exact hrd
          · rw [revealElement_online]
            show (observerUnobserve s a).onlineListener = _
            rw [observerUnobserve_online]
            exact honl
          · rw [revealElement_settings]
            show (observerUnobserve s a).settings = _
            rw [observerUnobserve_settings]
            exact hset
          · intro y
            rw [revealElement_childImg]
            show ((observerUnobserve s a).dom y).childImg = _
            rw [observerUnobserve_dom]
            exact hchild y
        case _ hc =>
          refine ⟨⟨obs2, ?_, hmemo⟩, ?_, ?_, ?_, ?_, ?_⟩
          · rw [revealElement_observer]
            exact hso
          · exact Iff.trans
              (revealElement_error_mem _ a x hxa (by rw [hchild a]; exact hxc))
              herr
          · rw [revealElement_rdGet _ a x hxa (by rw [hchild a]; exact hxc)]
            exact hrd
          · rw [revealElement_online]
            exact honl
          · rw [revealElement_settings]
            exact hset
          · intro y
            rw [revealElement_childImg]
            exact hchild y
      case _ => exact ⟨⟨obs2, hso, hmemo⟩, herr, hrd, honl, hset, hchild⟩)
    ⟨⟨obs, hobs, Iff.rfl⟩, Iff.rfl, rfl, rfl, rfl, fun _ => rfl⟩
  obtain ⟨hobs', herr', hrd', honl', hset', _⟩ := hP
  have hsetW : (loadAllNow w).settings = w.settings := hset'
  refine ⟨hobs', herr', hrd', honl', loadAllNow_pending_nil w, ?_⟩
  intro hd vis f hsk hf2 hf3 hf4
  obtain ⟨obs2, hWobs, _⟩ := hobs'
  exact addElements_fresh_observed (loadAllNow w) hd vis f obs2 hWobs
    (loadAllNow_pending_nil w) (by rw [hsetW]; exact hsk) hf2
    (by rw [hsetW]; exact hf3) hf4

/-- Witness for C10 at a concrete world: element 7 (not queued, not a
picture child) keeps its errored-set status across `loadAllNow`. -/
theorem c10_loadAllNow_frame_witness :
    (7 ∈ (loadAllNow c10World).errorElements ↔ 7 ∈ c10World.errorElements) :=
  (c10_loadAllNow_frame c10World 7 [1, 2] rfl (by decide)).2.1

end LazyLoadModel
